import Mathlib

/-!
# Channel provisioning and session flags of the sync server

A shallow embedding of `lib/database/channels.js` and `lib/user.js`.

Conventions of the embedding:

* JavaScript values that reach the modelled functions are values of `Prim`
  (primitives) or `JsVal` (primitives, plain objects, arrays); a callback
  argument is `some k` when it is a function and `none` otherwise.
* The asynchronous persistence layer (`db.query`, `db.users`, `tables`,
  `fs`) is an environment `Env` of response functions; every operation of
  `channels.js` is written in continuation-passing style exactly as in the
  source and yields the `Trace` of externally visible events in the order
  in which they are issued.
* Calls to the loggers are not part of the trace.
-/

namespace Sync

/-! ## JavaScript values -/

/-- Primitive JavaScript values. Numbers are restricted to integers. -/
inductive Prim where
  | undefined
  | null
  | bool (b : Bool)
  | num (n : Int)
  | str (s : String)
  deriving DecidableEq, Repr

/-- JavaScript values as they arrive in a socket payload: primitives, plain
objects and arrays. -/
inductive JsVal where
  | prim (p : Prim)
  | obj (fields : List (String × Prim))
  | arr (items : List Prim)
  deriving DecidableEq, Repr

/-- The `typeof` operator on primitives. -/
def Prim.typeof : Prim → String
  | .undefined => "undefined"
  | .null => "object"
  | .bool _ => "boolean"
  | .num _ => "number"
  | .str _ => "string"

/-- The `typeof` operator. -/
def JsVal.typeof : JsVal → String
  | .prim p => p.typeof
  | .obj _ => "object"
  | .arr _ => "object"

/-- JavaScript truthiness (`Boolean(v)`) of a primitive. -/
def Prim.truthy : Prim → Bool
  | .undefined => false
  | .null => false
  | .bool b => b
  | .num n => n != 0
  | .str s => s != ""

/-- String conversion as performed by `"..." + v`. -/
def Prim.toJsString : Prim → String
  | .undefined => "undefined"
  | .null => "null"
  | .bool b => if b then "true" else "false"
  | .num n => toString n
  | .str s => s

/-- An error argument of a node-style callback: `none` is `null`, `some m` is the
message `m`. -/
abbrev Err := Option String

/-- Truthiness of an error argument, as tested by `if (err)`: `null` and the
empty string are falsy. -/
def Err.truthy : Err → Bool
  | none => false
  | some s => s != ""

/-- A database row: column names with their values. -/
abbrev Row := List (String × Prim)

/-- Column access `row.col`. -/
def Row.col (r : Row) (c : String) : Prim :=
  (r.lookup c).getD Prim.undefined

/-- The second argument handed to a node-style callback. -/
inductive Res where
  | null
  | bool (b : Bool)
  | num (n : Int)
  | prim (p : Prim)
  | row (r : Row)
  | rows (rs : List Row)
  | nums (ns : List Prim)
  | created (name : Prim)
  deriving DecidableEq, Repr

/-- JavaScript truthiness of a callback result. -/
def Res.truthy : Res → Bool
  | .null => false
  | .bool b => b
  | .num n => n != 0
  | .prim p => p.truthy
  | .row _ => true
  | .rows _ => true
  | .nums _ => true
  | .created _ => true

/-! ## The validator -/

/-- The character class `[A-Za-z0-9_-]`. -/
def isNameChar (c : Char) : Bool :=
  c.isAlphanum || c == '_' || c == '-'

/-- Modelled from the spec: `isValidChannelName` of `lib/utilities.js`, which is
not part of the sources at hand. A name is valid iff it is a string of length
1 to 30 drawn from `[A-Za-z0-9_-]`. -/
def isValidChannelName : Prim → Bool
  | .str s => decide (1 ≤ s.length) && decide (s.length ≤ 30) && s.data.all isNameChar
  | _ => false

/-- The name `valid` under which `channels.js` imports the validator. -/
def valid (name : Prim) : Bool := isValidChannelName name

/-! ## Events and the persistence environment -/

/-- Externally visible events of the operations of `channels.js`. -/
inductive Event where
  /-- `db.query(sql, params, ...)` was issued. -/
  | query (sql : String) (params : List Prim)
  /-- `tables.createChannelTables(name, ...)` was issued. -/
  | createChannelTables (name : Prim)
  /-- `db.users.getGlobalRank(owner, ...)` was issued. -/
  | getGlobalRank (owner : Prim)
  /-- `fs.unlink` of the channel dump of `name` was issued. -/
  | unlink (name : Prim)
  /-- The caller's callback was invoked with `(err, res)`. -/
  | callback (err : Err) (res : Res)
  /-- A `TypeError` was thrown and the running handler was abandoned. -/
  | typeError
  deriving DecidableEq, Repr

/-- The events of one run, oldest first. -/
abbrev Trace := List Event

/-- A node-style callback: what happens when it is called with `(err, res)`. -/
abbrev Callback := Err → Res → Trace

/-- The responses of the collaborators that are not part of `channels.js`. -/
structure Env where
  /-- Response `(err, rows)` of `db.query` to a statement and its parameters;
  `rows = none` stands for a `null` result. -/
  query : String → List Prim → Err × Option (List Row)
  /-- Error reported by `tables.createChannelTables`. -/
  createChannelTables : Prim → Err
  /-- Response `(err, rank)` of `db.users.getGlobalRank`. -/
  getGlobalRank : Prim → Err × Int
  /-- Value of `Date.now()`. -/
  now : Int

/-- The function `blackHole` of `channels.js`: it does nothing. -/
def blackHole : Callback := fun _ _ => []

/-- The caller's callback when it records its invocation in the trace. -/
def record : Callback := fun err res => [Event.callback err res]

/-- A database result as the second argument of a callback. -/
def Res.ofRows : Option (List Row) → Res
  | none => .null
  | some rs => .rows rs

/-- `db.query(sql, params, callback)`: the statement is issued; when a callback is
given it is called with the response. -/
def dbQuery (env : Env) (sql : String) (params : List Prim)
    (callback : Option (Err → Option (List Row) → Trace)) : Trace :=
  Event.query sql params ::
    (match callback with
     | some k => k (env.query sql params).1 (env.query sql params).2
     | none => [])

/-- Passing the caller's callback itself as the callback of `db.query`. -/
def passRows (callback : Callback) : Option (Err → Option (List Row) → Trace) :=
  some fun err rows => callback err (Res.ofRows rows)

/-- `dropTable(name, callback)`; the callbacks given to it read only `err`. -/
def dropTable (env : Env) (name : String) (callback : Option (Err → Trace)) : Trace :=
  dbQuery env ("DROP TABLE `" ++ name ++ "`") []
    (callback.map fun k => fun err _ => k err)

/-! ## `channels.js`: rank store -/

/-- `deleteRank(chan, name, callback)`. -/
def deleteRank (env : Env) (chan name : Prim) (callback : Option Callback) : Trace :=
  let callback := callback.getD blackHole
  if !valid chan then
    callback (some "Invalid channel name") .null
  else
    dbQuery env ("DELETE FROM `chan_" ++ chan.toJsString ++ "_ranks` WHERE name=?")
      [name] (passRows callback)

/-- `setRank(chan, name, rank, callback)`. -/
def setRank (env : Env) (chan name : Prim) (rank : Int) (callback : Option Callback) :
    Trace :=
  let callback := callback.getD blackHole
  if rank < 2 then
    deleteRank env chan name (some callback)
  else if !valid chan then
    callback (some "Invalid channel name") .null
  else
    dbQuery env ("INSERT INTO `chan_" ++ chan.toJsString ++
        "_ranks` (name, rank) VALUES (?, ?) " ++ "ON DUPLICATE KEY UPDATE rank=?")
      [name, .num rank, .num rank] (passRows callback)

/-- `newRank(chan, name, rank, callback)`. -/
def newRank (env : Env) (chan name : Prim) (rank : Int) (callback : Option Callback) :
    Trace :=
  let callback := callback.getD blackHole
  if !valid chan then
    callback (some "Invalid channel name") .null
  else
    dbQuery env ("INSERT INTO `chan_" ++ chan.toJsString ++
        "_ranks` (name, rank) VALUES (?, ?) " ++ "ON DUPLICATE KEY UPDATE rank=rank")
      [name, .num rank] (passRows callback)

/-- `getRank(chan, name, callback)`. -/
def getRank (env : Env) (chan name : Prim) (callback : Option Callback) : Trace :=
  match callback with
  | none => []
  | some callback =>
    if !valid chan then
      callback (some "Invalid channel name") .null
    else
      dbQuery env ("SELECT name,rank FROM `chan_" ++ chan.toJsString ++
          "_ranks` WHERE name=?") [name]
        (some fun err rows =>
          if err.truthy then callback err (.num 1)
          else match rows with
            | none => [Event.typeError]
            | some [] => callback none (.num 1)
            | some (r :: _) => callback none (.prim (r.col "rank")))

/-- `getRanks(chan, names, callback)`. -/
def getRanks (env : Env) (chan : Prim) (names : List Prim) (callback : Option Callback) :
    Trace :=
  match callback with
  | none => []
  | some callback =>
    if !valid chan then
      callback (some "Invalid channel name") .null
    else
      let replace := "(" ++ ",".intercalate (names.map fun _ => "?") ++ ")"
      dbQuery env ("SELECT name,rank FROM `chan_" ++ chan.toJsString ++
          "_ranks` WHERE name IN " ++ replace) names
        (some fun err rows =>
          if err.truthy then callback err (.nums [])
          else match rows with
            | none => [Event.typeError]
            | some rs => callback none (.nums (rs.map fun r => r.col "rank")))

/-- `allRanks(chan, callback)`. -/
def allRanks (env : Env) (chan : Prim) (callback : Option Callback) : Trace :=
  match callback with
  | none => []
  | some callback =>
    if !valid chan then
      callback (some "Invalid channel name") .null
    else
      dbQuery env ("SELECT name,rank FROM `chan_" ++ chan.toJsString ++ "_ranks` WHERE 1")
        [] (passRows callback)

/-! ## `channels.js`: channel directory and provisioning -/

/-- `initTables(name, owner, callback)`. The error of `createChannelTables` is
bound to `err` and shadowed by the `err` of `getGlobalRank`. -/
def initTables (env : Env) (name owner : Prim) (callback : Callback) : Trace :=
  if !valid name then
    callback (some "Invalid channel name") .null
  else
    Event.createChannelTables name ::
      ((fun (_err : Err) =>
        Event.getGlobalRank owner ::
          ((fun (err : Err) (rank : Int) =>
            if err.truthy then
              callback err .null
            else
              let rank := max rank 5
              setRank env name owner rank (some fun err _ =>
                if err.truthy then
                  dropTable env ("chan_" ++ name.toJsString ++ "_ranks") none ++
                  dropTable env ("chan_" ++ name.toJsString ++ "_ranks") none ++
                  dropTable env ("chan_" ++ name.toJsString ++ "_library") none ++
                  callback err .null
                else
                  callback none (.bool true)))
            (env.getGlobalRank owner).1 (env.getGlobalRank owner).2))
        (env.createChannelTables name))

/-- `isChannelTaken(name, callback)`. -/
def isChannelTaken (env : Env) (name : Prim) (callback : Option Callback) : Trace :=
  match callback with
  | none => []
  | some callback =>
    if !valid name then
      callback (some "Invalid channel name") .null
    else
      dbQuery env "SELECT name FROM `channels` WHERE name=?" [name]
        (some fun err rows =>
          if err.truthy then callback err (.bool true)
          else match rows with
            | none => [Event.typeError]
            | some rs => callback none (.bool (decide (rs.length > 0))))

/-- `lookup(name, callback)`. -/
def lookup (env : Env) (name : Prim) (callback : Option Callback) : Trace :=
  match callback with
  | none => []
  | some callback =>
    if !valid name then
      callback (some "Invalid channel name") .null
    else
      dbQuery env "SELECT * FROM `channels` WHERE name=?" [name]
        (some fun err rows =>
          if err.truthy then callback err .null
          else match rows with
            | none => [Event.typeError]
            | some [] => callback (some "No such channel") .null
            | some (r :: _) => callback none (.row r))

/-- `register(name, owner, callback)`. -/
def register (env : Env) (name owner : Prim) (callback : Option Callback) : Trace :=
  let callback := callback.getD blackHole
  if name.typeof != "string" || owner.typeof != "string" then
    callback (some "Name and owner are required for channel registration") .null
  else if !valid name then
    callback (some ("Invalid channel name.  Channel names may consist of 1-30 " ++
      "characters a-z, A-Z, 0-9, -, and _")) .null
  else
    isChannelTaken env name (some fun err taken =>
      if err.truthy then
        callback err .null
      else if taken.truthy then
        callback (some ("Channel name " ++ name.toJsString ++ " is already taken")) .null
      else
        dbQuery env ("INSERT INTO `channels` " ++ "(`name`, `owner`, `time`) VALUES (?, ?, ?)")
          [name, owner, .num env.now]
          (some fun err _ =>
            if err.truthy then
              callback err .null
            else
              initTables env name owner (fun err _ =>
                if err.truthy then
                  dbQuery env "DELETE FROM `channels` WHERE name=?" [name] none ++
                  callback err .null
                else
                  callback none (.created name))))

/-- The error accumulation of `drop`: `if (err && e) err += "\n" + e; else if (e)
err = e;`. -/
def joinErr (err e : Err) : Err :=
  if err.truthy && e.truthy then some (err.getD "" ++ ("\n" ++ e.getD ""))
  else if e.truthy then e
  else err

/-- `drop(name, callback)`. -/
def drop (env : Env) (name : Prim) (callback : Option Callback) : Trace :=
  let callback := callback.getD blackHole
  if !valid name then
    callback (some "Invalid channel name") .null
  else
    dropTable env ("chan_" ++ name.toJsString ++ "_ranks") (some fun err =>
      dropTable env ("chan_" ++ name.toJsString ++ "_bans") (some fun e2 =>
        let err := joinErr err e2
        dropTable env ("chan_" ++ name.toJsString ++ "_library") (some fun e3 =>
          let err := joinErr err e3
          dbQuery env "DELETE FROM `channels` WHERE name=?" [name] (some fun e4 _ =>
            let err := joinErr err e4
            Event.unlink name :: callback err (.bool (!err.truthy))))))

/-- The in-memory channel object handed to `load`, as far as `load` reads and
writes it. -/
structure Chan where
  name : Prim
  uniqueName : Prim
  dead : Bool
  registered : Bool
  deriving DecidableEq, Repr

/-- `load(chan, callback)`: the trace together with the channel object as `load`
leaves it. `toLowerCase` is taken on ASCII letters. -/
def load (env : Env) (chan : Chan) (callback : Option Callback) : Chan × Trace :=
  let callback := callback.getD blackHole
  if !valid chan.name then
    (chan, callback (some "Invalid channel name") .null)
  else
    let sql := "SELECT * FROM `channels` WHERE name=?"
    let err := (env.query sql [chan.name]).1
    let res := (env.query sql [chan.name]).2
    if err.truthy then
      (chan, Event.query sql [chan.name] :: callback err .null)
    else match res with
      | none => (chan, [Event.query sql [chan.name], Event.typeError])
      | some [] =>
        (chan, Event.query sql [chan.name] :: callback (some "Channel is not registered") .null)
      | some (r :: _) =>
        if chan.dead then
          (chan, Event.query sql [chan.name] :: callback (some "Channel is dead") .null)
        else
          match r.col "name" with
          | .str s =>
            (⟨.str s, .str s.toLower, chan.dead, true⟩,
              Event.query sql [chan.name] :: callback none (.bool true))
          | v =>
            (⟨v, chan.uniqueName, chan.dead, chan.registered⟩,
              [Event.query sql [chan.name], Event.typeError])

/-! ## `channels.js`: library store -/

/-- A media item as far as `addToLibrary` reads it. -/
structure Media where
  id : Prim
  title : Prim
  seconds : Prim
  type : Prim
  deriving DecidableEq, Repr

/-- `addToLibrary(chan, media, callback)`. -/
def addToLibrary (env : Env) (chan : Prim) (media : Media) (callback : Option Callback) :
    Trace :=
  let callback := callback.getD blackHole
  if !valid chan then
    callback (some "Invalid channel name") .null
  else
    dbQuery env ("INSERT INTO `chan_" ++ chan.toJsString ++
        "_library` (id, title, seconds, type) " ++
        "VALUES (?, ?, ?, ?) ON DUPLICATE KEY UPDATE id=id")
      [media.id, media.title, media.seconds, media.type] (passRows callback)

/-- `getLibraryItem(chan, id, callback)`. -/
def getLibraryItem (env : Env) (chan id : Prim) (callback : Option Callback) : Trace :=
  match callback with
  | none => []
  | some callback =>
    if !valid chan then
      callback (some "Invalid channel name") .null
    else
      dbQuery env ("SELECT * FROM `chan_" ++ chan.toJsString ++ "_library` WHERE id=?") [id]
        (some fun err rows =>
          if err.truthy then callback err .null
          else match rows with
            | none => [Event.typeError]
            | some [] => callback (some "Item not in library") .null
            | some (r :: _) => callback none (.row r))

/-- `searchLibrary(chan, search, callback)`. -/
def searchLibrary (env : Env) (chan search : Prim) (callback : Option Callback) : Trace :=
  match callback with
  | none => []
  | some callback =>
    dbQuery env ("SELECT * FROM `chan_" ++ chan.toJsString ++ "_library` WHERE title LIKE ?")
      [.str ("%" ++ search.toJsString ++ "%")] (passRows callback)

/-- `deleteFromLibrary(chan, id, callback)`. -/
def deleteFromLibrary (env : Env) (chan id : Prim) (callback : Option Callback) : Trace :=
  let callback := callback.getD blackHole
  if !valid chan then
    callback (some "Invalid channel name") .null
  else
    dbQuery env ("DELETE FROM `chan_" ++ chan.toJsString ++ "_library` WHERE id=?") [id]
      (passRows callback)

/-! ## `channels.js`: ban store -/

/-- Splitting a list of characters at every `'.'`. -/
def splitDots : List Char → List (List Char)
  | [] => [[]]
  | c :: cs =>
    if c = '.' then [] :: splitDots cs
    else match splitDots cs with
      | [] => [[c]]
      | p :: ps => (c :: p) :: ps

/-- A match of `\d+`: a non-empty run of the digits `0` to `9`. -/
def isDigits (l : List Char) : Bool :=
  !l.isEmpty && l.all Char.isDigit

/-- The range of an address: `ip.replace(/^(\d+\.\d+\.\d+)\.\d+$/, "$1")`. -/
def ipRange (ip : String) : String :=
  match splitDots ip.data with
  | [a, b, c, d] =>
    if isDigits a && isDigits b && isDigits c && isDigits d then
      String.mk (a ++ '.' :: b ++ '.' :: c)
    else ip
  | _ => ip

/-- `ban(chan, ip, name, note, bannedby, callback)`. -/
def ban (env : Env) (chan ip name note bannedby : Prim) (callback : Option Callback) :
    Trace :=
  let callback := callback.getD blackHole
  if !valid chan then
    callback (some "Invalid channel name") .null
  else
    dbQuery env ("INSERT INTO `chan_" ++ chan.toJsString ++
        "_bans` (ip, name, reason, bannedby) " ++ "VALUES (?, ?, ?, ?)")
      [ip, name, note, bannedby] (passRows callback)

/-- The callback of the two ban checks: `callback(err, err ? false : rows.length > 0)`. -/
def banCheck (callback : Callback) : Option (Err → Option (List Row) → Trace) :=
  some fun err rows =>
    if err.truthy then callback err (.bool false)
    else match rows with
      | none => [Event.typeError]
      | some rs => callback err (.bool (decide (rs.length > 0)))

/-- `isIPBanned(chan, ip, callback)`. -/
def isIPBanned (env : Env) (chan : Prim) (ip : String) (callback : Option Callback) :
    Trace :=
  match callback with
  | none => []
  | some callback =>
    if !valid chan then
      callback (some "Invalid channel name") .null
    else
      let range := ipRange ip
      dbQuery env ("SELECT * FROM `chan_" ++ chan.toJsString ++ "_bans` WHERE ip=? OR ip=?")
        [.str ip, .str range] (banCheck callback)

/-- `isNameBanned(chan, name, callback)`. -/
def isNameBanned (env : Env) (chan name : Prim) (callback : Option Callback) : Trace :=
  match callback with
  | none => []
  | some callback =>
    if !valid chan then
      callback (some "Invalid channel name") .null
    else
      dbQuery env ("SELECT * FROM `chan_" ++ chan.toJsString ++ "_bans` WHERE name=?") [name]
        (banCheck callback)

/-- `listBans(chan, callback)`. -/
def listBans (env : Env) (chan : Prim) (callback : Option Callback) : Trace :=
  match callback with
  | none => []
  | some callback =>
    if !valid chan then
      callback (some "Invalid channel name") .null
    else
      dbQuery env ("SELECT * FROM `chan_" ++ chan.toJsString ++ "_bans` WHERE 1") []
        (passRows callback)

/-- `unbanName(chan, name, callback)`. -/
def unbanName (env : Env) (chan name : Prim) (callback : Option Callback) : Trace :=
  let callback := callback.getD blackHole
  if !valid chan then
    callback (some "Invalid channel name") .null
  else
    dbQuery env ("DELETE FROM `chan_" ++ chan.toJsString ++ "_bans` WHERE ip='*' AND name=?")
      [name] (passRows callback)

/-- `unbanIP(chan, ip, callback)`. -/
def unbanIP (env : Env) (chan ip : Prim) (callback : Option Callback) : Trace :=
  let callback := callback.getD blackHole
  if !valid chan then
    callback (some "Invalid channel name") .null
  else
    dbQuery env ("DELETE FROM `chan_" ++ chan.toJsString ++ "_bans` WHERE ip=?")
      [ip] (passRows callback)

/-- `unbanId(chan, id, callback)`. -/
def unbanId (env : Env) (chan id : Prim) (callback : Option Callback) : Trace :=
  let callback := callback.getD blackHole
  if !valid chan then
    callback (some "Invalid channel name") .null
  else
    dbQuery env ("DELETE FROM `chan_" ++ chan.toJsString ++ "_bans` WHERE id=?")
      [id] (passRows callback)

/-! ## `user.js`: the session -/

/-- The 32-bit pattern of a number (`ToInt32`, read as an unsigned word). -/
def toWord (n : Nat) : Nat := n % 4294967296

/-- The operator `a & b` on 32-bit words. -/
def bitAnd (a b : Nat) : Nat := toWord a &&& toWord b

/-- The operator `~a` on 32-bit words. -/
def bitNot (a : Nat) : Nat := 4294967295 - toWord a

/-- The account bound to a session, as far as `user.js` reads it. -/
structure Account where
  name : String
  lowername : String
  globalRank : Int
  channelRank : Int
  effectiveRank : Int
  deriving DecidableEq, Repr

/-- The channel a session is bound to, as far as `user.js` reads it; `users` holds
`getLowerName()` of every user of the channel. -/
structure Channel where
  name : String
  dead : Bool
  users : List String
  deriving DecidableEq, Repr

/-- The fields of a `User` object. -/
structure User where
  flags : Nat
  loggingIn : Bool
  ip : String
  account : Account
  channel : Option Channel
  deriving DecidableEq, Repr

namespace User

/-- The flag `User.READY`. -/
def READY : Nat := 1 <<< 0
/-- The flag `User.LOGGING_IN`. -/
def LOGGING_IN : Nat := 1 <<< 1
/-- The flag `User.LOGGED_IN`. -/
def LOGGED_IN : Nat := 1 <<< 2
/-- The flag `User.AFK`. -/
def AFK : Nat := 1 <<< 3
/-- The flag `User.MUTED`. -/
def MUTED : Nat := 1 <<< 4
/-- The flag `User.SMUTED`. -/
def SMUTED : Nat := 1 <<< 5
/-- The flag `User.IN_CHANNEL`. -/
def IN_CHANNEL : Nat := 1 <<< 6

/-- The seven flags. -/
def allFlags : List Nat := [READY, LOGGING_IN, LOGGED_IN, AFK, MUTED, SMUTED, IN_CHANNEL]

/-- `User.prototype.is`: `Boolean(this.flags & flag)`. -/
def is (u : User) (flag : Nat) : Bool :=
  bitAnd u.flags flag != 0

/-- `User.prototype.setFlag`: `this.flags &= flag`. -/
def setFlag (u : User) (flag : Nat) : User :=
  { u with flags := bitAnd u.flags flag }

/-- `User.prototype.clearFlag`: `this.flags &= ~flag`. -/
def clearFlag (u : User) (flag : Nat) : User :=
  { u with flags := bitAnd u.flags (bitNot flag) }

/-- `User.prototype.inChannel`. -/
def inChannel (u : User) : Bool :=
  match u.channel with
  | none => false
  | some c => !c.dead

end User

/-- A message emitted to the socket by the login flows. -/
inductive Msg where
  /-- `"login"` with `success: false` and the given error. -/
  | loginFailure (error : String)
  /-- `"login"` with `success: true`, the name, and `guest: true` for a guest. -/
  | loginSuccess (name : String) (guest : Bool)
  /-- `"rank"` with the given value. -/
  | rank (value : Int)
  deriving DecidableEq, Repr

/-- Whether a message is a `"login"` outcome. -/
def Msg.isLoginOutcome : Msg → Bool
  | .loginFailure _ => true
  | .loginSuccess _ _ => true
  | .rank _ => false

/-- An emitted message together with the flag word of the session at the moment
of the emission. -/
structure Sent where
  msg : Msg
  flags : Nat
  deriving DecidableEq, Repr

/-- An asynchronous call that was issued and whose callback has not run yet, with
the variables its callback closes over. -/
inductive Pending where
  /-- `db.users.verifyLogin(name, pw, ...)` issued by `login`. -/
  | verifyLogin (name pw : String)
  /-- `db.users.isUsernameTaken(name, ...)` issued by `guestLogin`. -/
  | isUsernameTaken (name : String)
  /-- `Account.getAccount(userName, ip, opts, ...)` issued by `login(name, pw)`. -/
  | getAccountLogin (userName name : String) (channel : Option String)
  /-- `Account.getAccount(name, ip, opts, ...)` issued by `guestLogin(name)`. -/
  | getAccountGuest (name : String) (channel : Option String)
  deriving DecidableEq, Repr

/-- The configuration and helpers `user.js` reads from other modules. -/
structure Config where
  /-- Value of `Config.get("guest-login-delay")`, in seconds. -/
  guestLoginDelay : Int
  /-- The validator `util.isValidUserName`. -/
  isValidUserName : String → Bool
  /-- The built-in `String.prototype.toLowerCase`. -/
  toLowerCase : String → String

/-- A session whose `"ready"` handlers are registered, with the process-wide map
`lastguestlogin` and everything the login flows have emitted or issued. -/
structure World where
  user : User
  /-- The map `lastguestlogin`: address to time in milliseconds. -/
  lastguestlogin : List (String × Int)
  /-- Messages emitted to the socket, oldest first. -/
  sent : List Sent
  /-- Asynchronous calls awaiting their callback, oldest first. -/
  pending : List Pending
  /-- Number of times `initAdminCallbacks` ran. -/
  adminCallbacks : Nat
  /-- Number of handlers abandoned by an uncaught exception. -/
  thrown : Nat
  deriving DecidableEq, Repr

namespace World

/-- A new session: `new User(socket)` with no flag set. -/
def init (ip : String) (account : Account) : World :=
  { user := { flags := 0, loggingIn := false, ip := ip, account := account, channel := none },
    lastguestlogin := [], sent := [], pending := [], adminCallbacks := 0, thrown := 0 }

/-- `self.socket.emit(...)`. -/
def emit (w : World) (m : Msg) : World :=
  { w with sent := w.sent ++ [⟨m, w.user.flags⟩] }

/-- `self.setFlag(flag)`. -/
def setFlag (w : World) (flag : Nat) : World :=
  { w with user := w.user.setFlag flag }

/-- `self.clearFlag(flag)`. -/
def clearFlag (w : World) (flag : Nat) : World :=
  { w with user := w.user.clearFlag flag }

/-- Issuing an asynchronous call. -/
def issue (w : World) (p : Pending) : World :=
  { w with pending := w.pending ++ [p] }

/-- An uncaught exception ends the running handler. -/
def throw (w : World) : World :=
  { w with thrown := w.thrown + 1 }

/-- The option `opts.channel` handed to `Account.getAccount`. -/
def optsChannel (w : World) : Option String :=
  match w.user.channel with
  | some c => if w.user.inChannel then some c.name else none
  | none => none

/-- The listener `self.on("login", ...)` registered by the constructor. -/
def onLoginEvent (w : World) (account : Account) : World :=
  if account.globalRank ≥ 255 then { w with adminCallbacks := w.adminCallbacks + 1 } else w

end World

/-- `User.prototype.login(name, pw)` up to the call of `verifyLogin`. -/
def login (w : World) (name pw : String) : World :=
  let w := { w with user := { w.user with loggingIn := true } }
  w.issue (.verifyLogin name pw)

/-- The callback of `verifyLogin` in `login(name, pw)`. On the error
`"Invalid username/password combination"` the log line reads the undeclared
variables `webserver` and `req`, which throws before the outcome is emitted. -/
def loginVerified (w : World) (name : String) (err : Err) (userName : String) : World :=
  let w := { w with user := { w.user with loggingIn := false } }
  if err.truthy then
    if err == some "Invalid username/password combination" then
      w.throw
    else
      w.emit (.loginFailure (err.getD ""))
  else
    w.issue (.getAccountLogin userName name w.optsChannel)

/-- The callback of `Account.getAccount` in `login(name, pw)`. -/
def loginAccount (w : World) (userName : String) (err : Err) (account : Account) : World :=
  if err.truthy then
    w
  else
    let w := { w with user := { w.user with account := account } }
    let w := w.emit (.loginSuccess userName false)
    let w := w.emit (.rank w.user.account.effectiveRank)
    let w := w.setFlag User.LOGGED_IN
    w.onLoginEvent w.user.account

/-- `User.prototype.guestLogin(name)` up to the call of `isUsernameTaken`; `now` is
the value of `Date.now()`. -/
def guestLogin (cfg : Config) (now : Int) (w : World) (name : String) : World :=
  let restricted : Bool :=
    match w.lastguestlogin.lookup w.user.ip with
    | some last => decide (((now : ℚ) - (last : ℚ)) / 1000 < (cfg.guestLoginDelay : ℚ))
    | none => false
  if restricted then
    w.emit (.loginFailure ("Guest logins are restricted to one per IP address per " ++
      toString cfg.guestLoginDelay ++ " seconds."))
  else if !cfg.isValidUserName name then
    w.emit (.loginFailure ("Invalid username.  Usernames must be 1-20 characters long and " ++
      "consist only of characters a-z, A-Z, 0-9, -, _, and accented " ++ "letters."))
  else
    let w := w.setFlag User.LOGGING_IN
    w.issue (.isUsernameTaken name)

/-- The callback of `isUsernameTaken` in `guestLogin(name)`; `now` is the value of
`Date.now()` when it runs. -/
def guestLoginChecked (cfg : Config) (now : Int) (w : World) (name : String) (err : Err)
    (taken : Bool) : World :=
  let w := w.clearFlag User.LOGGING_IN
  if err.truthy then
    w.emit (.loginFailure (err.getD ""))
  else if taken then
    w.emit (.loginFailure "That username is registered.")
  else if w.user.inChannel &&
      ((w.user.channel.map fun c =>
        c.users.any fun u => u == cfg.toLowerCase name).getD false) then
    w.emit (.loginFailure "That name is already in use on this channel.")
  else
    let w := { w with lastguestlogin :=
      (w.user.ip, now) :: w.lastguestlogin.filter fun p => p.1 != w.user.ip }
    w.issue (.getAccountGuest name w.optsChannel)

/-- The callback of `Account.getAccount` in `guestLogin(name)`. -/
def guestLoginAccount (w : World) (name : String) (err : Err) (account : Account) : World :=
  if err.truthy then
    w
  else
    let w := { w with user := { w.user with account := account } }
    let w := w.emit (.loginSuccess name true)
    let w := w.emit (.rank 0)
    let w := w.setFlag User.LOGGED_IN
    w.onLoginEvent w.user.account

/-- Whether reading a property of the value throws (`null` and `undefined`). -/
def JsVal.isNullish : JsVal → Bool
  | .prim .null => true
  | .prim .undefined => true
  | _ => false

/-- Reading one of the properties `name`, `pw`, `msg`, `to`, `query`, `source` of a
value that is not `null` or `undefined`. -/
def JsVal.get : JsVal → String → Prim
  | .obj fields, k => (fields.lookup k).getD .undefined
  | _, _ => .undefined

/-- The string a primitive of type `"string"` holds. -/
def Prim.asString : Prim → String
  | .str s => s
  | _ => ""

/-- The handler `self.socket.on("login", ...)`; `now` is the value of `Date.now()`. -/
def onLogin (cfg : Config) (now : Int) (w : World) (data : JsVal) : World :=
  let data := if data.typeof == "object" then data else JsVal.obj []
  if data.isNullish then
    w.throw
  else
    let name := data.get "name"
    if name.typeof != "string" then
      w
    else
      let pw := if (data.get "pw").truthy then data.get "pw" else Prim.str ""
      let pw := if pw.typeof != "string" then Prim.str "" else pw
      if w.user.is User.LOGGING_IN || w.user.is User.LOGGED_IN then
        w
      else if !pw.truthy then
        guestLogin cfg now w name.asString
      else
        login w name.asString pw.asString

/-- One step of a session: a call of a method, an inbound `"login"` message, or
the completion of the pending asynchronous call at position `i`. -/
inductive Step where
  | setFlag (flag : Nat)
  | clearFlag (flag : Nat)
  | login (name pw : String)
  | guestLogin (now : Int) (name : String)
  | loginMsg (now : Int) (data : JsVal)
  | verifyLoginDone (i : Nat) (err : Err) (userName : String)
  | isUsernameTakenDone (i : Nat) (now : Int) (err : Err) (taken : Bool)
  | getAccountDone (i : Nat) (err : Err) (account : Account)
  | setChannel (channel : Option Channel)

/-- The effect of one step. A completion that does not match the pending call at
its position has no effect. -/
def step (cfg : Config) (w : World) : Step → World
  | .setFlag flag => w.setFlag flag
  | .clearFlag flag => w.clearFlag flag
  | .login name pw => login w name pw
  | .guestLogin now name => guestLogin cfg now w name
  | .loginMsg now data => onLogin cfg now w data
  | .verifyLoginDone i err userName =>
    match w.pending.get? i with
    | some (.verifyLogin name _) =>
      loginVerified { w with pending := w.pending.eraseIdx i } name err userName
    | _ => w
  | .isUsernameTakenDone i now err taken =>
    match w.pending.get? i with
    | some (.isUsernameTaken name) =>
      guestLoginChecked cfg now { w with pending := w.pending.eraseIdx i } name err taken
    | _ => w
  | .getAccountDone i err account =>
    match w.pending.get? i with
    | some (.getAccountLogin userName _ _) =>
      loginAccount { w with pending := w.pending.eraseIdx i } userName err account
    | some (.getAccountGuest name _) =>
      guestLoginAccount { w with pending := w.pending.eraseIdx i } name err account
    | _ => w
  | .setChannel channel => { w with user := { w.user with channel := channel } }

/-- The session after a sequence of steps. -/
def run (cfg : Config) (w : World) (steps : List Step) : World :=
  steps.foldl (step cfg) w

/-! ## Concrete inputs -/

/-- An account with no privileges, standing for `Account.default(ip)`. -/
def anonAccount : Account :=
  { name := "", lowername := "", globalRank := 0, channelRank := 0, effectiveRank := 0 }

/-- The account resolved for the registered user `alice`. -/
def aliceAccount : Account :=
  { name := "alice", lowername := "alice", globalRank := 1, channelRank := 1,
    effectiveRank := 1 }

/-- Lower-casing of one character for the sample configuration: the letters `A` to
`Z` and the capital letters of the Latin-1 supplement (`U+00C0` to `U+00DE` without
the sign `U+00D7`) move up by 32; every other character stays. -/
def sampleLowerChar (c : Char) : Char :=
  if (65 ≤ c.toNat ∧ c.toNat ≤ 90) ∨ (192 ≤ c.toNat ∧ c.toNat ≤ 222 ∧ c.toNat ≠ 215) then
    Char.ofNat (c.toNat + 32)
  else c

/-- A configuration: a delay of 60 seconds, user names of 1 to 20 characters of
`[A-Za-z0-9_-]`, and lower-casing by `sampleLowerChar`. -/
def sampleConfig : Config :=
  { guestLoginDelay := 60,
    isValidUserName := fun s =>
      decide (1 ≤ s.length) && decide (s.length ≤ 20) && s.data.all isNameChar,
    toLowerCase := fun s => String.mk (s.data.map sampleLowerChar) }

/-- A new session from the address `10.0.0.1`. -/
def newSession : World := World.init "10.0.0.1" anonAccount

/-- The payload of a `"login"` message with a name and a password. -/
def loginPayload (name pw : String) : JsVal :=
  .obj [("name", .str name), ("pw", .str pw)]

/-- The payload of a `"login"` message with a name only. -/
def guestPayload (name : String) : JsVal :=
  .obj [("name", .str name)]

/-- A database in which every statement succeeds and returns no rows. -/
def emptyDb : String → List Prim → Err × Option (List Row) :=
  fun _ _ => (none, some [])

/-- A database in which every statement succeeds and returns the row of the
channel `room`. -/
def takenDb : String → List Prim → Err × Option (List Row) :=
  fun _ _ => (none, some [[("name", .str "room")]])

/-- A database in which dropping the ban table and the directory delete fail and
every other statement succeeds. -/
def flakyDb : String → List Prim → Err × Option (List Row) :=
  fun sql _ =>
    if sql == "DROP TABLE `chan_room_bans`" then (some "Unknown table", none)
    else if sql == "DELETE FROM `channels` WHERE name=?" then (some "Lock wait timeout", none)
    else (none, some [])

/-- Every collaborator succeeds; the owner's global rank is 3. -/
def envAllGood : Env :=
  { query := emptyDb, createChannelTables := fun _ => none,
    getGlobalRank := fun _ => (none, 3), now := 1000 }

/-- The name is already registered. -/
def envTaken : Env :=
  { query := takenDb, createChannelTables := fun _ => none,
    getGlobalRank := fun _ => (none, 3), now := 1000 }

/-- Creation of the auxiliary tables reports an error; everything else succeeds. -/
def envTablesFail : Env :=
  { query := emptyDb, createChannelTables := fun _ => some "Failed to create table",
    getGlobalRank := fun _ => (none, 3), now := 1000 }

/-- Resolving the owner's global rank reports an error; everything else succeeds. -/
def envRankLookupFails : Env :=
  { query := emptyDb, createChannelTables := fun _ => none,
    getGlobalRank := fun _ => (some "Database failure", 0), now := 1000 }

/-- Two of the deletion steps of `drop` fail. -/
def envFlaky : Env :=
  { query := flakyDb, createChannelTables := fun _ => none,
    getGlobalRank := fun _ => (none, 3), now := 1000 }

/-- The errors reported by the four deletion steps of `drop(name)`, in step order:
the truthy `err` arguments of the three table drops and of the directory delete. -/
def dropErrors (env : Env) (name : Prim) : List String :=
  ([ (env.query ("DROP TABLE `" ++ ("chan_" ++ name.toJsString ++ "_ranks") ++ "`") []).1,
     (env.query ("DROP TABLE `" ++ ("chan_" ++ name.toJsString ++ "_bans") ++ "`") []).1,
     (env.query ("DROP TABLE `" ++ ("chan_" ++ name.toJsString ++ "_library") ++ "`") []).1,
     (env.query "DELETE FROM `channels` WHERE name=?" [name]).1 ].filter Err.truthy).map
    fun e => e.getD ""

/-! ## `user.js`: channel request handlers -/

/-- What a socket handler does, as far as the wrappers and the handlers below
reach: calls into the channel, messages to the socket and the channel, and thrown
exceptions. -/
inductive Effect where
  /-- A `TypeError` thrown by reading a property of `null`. -/
  | typeError
  /-- `self.channel.handlePm(self, data)`. -/
  | handlePm (data : JsVal)
  /-- `self.socket.emit("errorMsg", { msg })`. -/
  | errorMsg (msg : String)
  /-- `self.kick(reason)`. -/
  | kick (reason : String)
  /-- `Server.getServer().getChannel(name).preJoin(self, pw)`. -/
  | preJoin (name : String) (pw : Prim)
  /-- `self.socket.emit("rank", rank)`. -/
  | emitRank (rank : Int)
  /-- `self.channel.sendAll("setUserRank", { name, rank })`. -/
  | sendAllSetUserRank (name : String) (rank : Int)
  deriving DecidableEq, Repr

/-- `typecheck(type, def, fn)`: the function it returns. -/
def typecheck {α : Type} (type : String) (defv : JsVal) (fn : JsVal → α) : JsVal → α :=
  fun data => if data.typeof != type then fn defv else fn data

/-- `wrapTypecheck(msg, fn)`: the listener it registers for `msg`, run on a session
in the state `u`. -/
def wrapTypecheck {β : Type} (u : User) (fn : JsVal → List β) : JsVal → List β :=
  typecheck "object" (.obj []) fun data => if u.inChannel then fn data else []

/-- `wrap(msg, fn)`: the listener it registers for `msg`, run on a session in the
state `u`. -/
def wrap {β : Type} (u : User) (fn : JsVal → List β) : JsVal → List β :=
  fun data => if u.inChannel then fn data else []

/-- The handler given to `wrapTypecheck("pm", ...)`. -/
def pmHandler (data : JsVal) : List Effect :=
  if data.isNullish then [.typeError]
  else if (data.get "msg").typeof != "string" || (data.get "to").typeof != "string" then []
  else [.handlePm data]

/-- The handler given to `typecheck` for `"joinChannel"`. The name that reaches
`toLowerCase` passed the validator, so it holds ASCII characters only. -/
def joinChannelHandler (u : User) (data : JsVal) : List Effect :=
  if u.inChannel then []
  else if data.isNullish then [.typeError]
  else if (data.get "name").typeof != "string" then []
  else if !isValidChannelName (data.get "name") then
    [.errorMsg ("Invalid channel name.  Channel names may consist of 1-30 " ++
        "characters in the set a-z, A-Z, 0-9, -, and _"),
     .kick "Invalid channel name"]
  else [.preJoin (data.get "name").asString.toLower (data.get "pw")]

/-- The listener registered by `self.socket.once("joinChannel", typecheck("object",
{}, ...))`. -/
def onJoinChannel (u : User) : JsVal → List Effect :=
  typecheck "object" (.obj []) (joinChannelHandler u)

/-- The number a value of type `"number"` holds. -/
def JsVal.asNum : JsVal → Int
  | .prim (.num n) => n
  | _ => 0

/-- The listener registered for `"borrow-rank"` by `initAdminCallbacks`: the session
afterwards and what was sent. -/
def onBorrowRank (u : User) (rank : JsVal) : User × List Effect :=
  if u.inChannel then
    if rank.typeof != "number" then (u, [])
    else if rank.asNum > u.account.globalRank then (u, [])
    else
      let rank := if rank.asNum == 255 && decide (u.account.globalRank > 255) then
        u.account.globalRank else rank.asNum
      let u := { u with account := { u.account with channelRank := rank } }
      (u, [.emitRank rank, .sendAllSetUserRank u.account.name rank])
  else (u, [])

/-! ## The rank table and the ban table as data -/

/-- Modelled from the spec: the rows of a table `chan_<name>_ranks(name, rank)`,
whose schema (`lib/database/tables.js`) is not part of the sources at hand. The
table has a unique key on `name`; a row is a member name with its rank. -/
abbrev RankTable := List (Prim × Int)

/-- The statement issued by `deleteRank`. -/
def rankDeleteSql (chan : String) : String :=
  "DELETE FROM `chan_" ++ chan ++ "_ranks` WHERE name=?"

/-- The statement issued by the storing branch of `setRank`. -/
def rankUpsertSql (chan : String) : String :=
  "INSERT INTO `chan_" ++ chan ++ "_ranks` (name, rank) VALUES (?, ?) " ++
    "ON DUPLICATE KEY UPDATE rank=?"

/-- The statement issued by `newRank`. -/
def rankInsertSql (chan : String) : String :=
  "INSERT INTO `chan_" ++ chan ++ "_ranks` (name, rank) VALUES (?, ?) " ++
    "ON DUPLICATE KEY UPDATE rank=rank"

/-- The statement issued by `getRank`. -/
def rankSelectSql (chan : String) : String :=
  "SELECT name,rank FROM `chan_" ++ chan ++ "_ranks` WHERE name=?"

/-- Modelled from the spec: the effect of a statement on the rank table of `chan`.
`DELETE ... WHERE name=?` removes the rows of the name; `INSERT ... ON DUPLICATE
KEY UPDATE rank=?` updates the row of the name or adds it; `INSERT ... ON
DUPLICATE KEY UPDATE rank=rank` adds the row unless the name has one. Any other
statement leaves the table as it is. -/
def RankTable.exec (chan : String) (t : RankTable) (sql : String) (params : List Prim) :
    RankTable :=
  if sql = rankDeleteSql chan then
    match params with
    | [name] => t.filter fun p => p.1 != name
    | _ => t
  else if sql = rankUpsertSql chan then
    match params with
    | [name, .num rank, .num update] =>
      if t.any fun p => p.1 == name then
        t.map fun p => if p.1 == name then (p.1, update) else p
      else t ++ [(name, rank)]
    | _ => t
  else if sql = rankInsertSql chan then
    match params with
    | [name, .num rank] =>
      if t.any fun p => p.1 == name then t else t ++ [(name, rank)]
    | _ => t
  else t

/-- Modelled from the spec: the response of the rank table of `chan` to a
statement. `SELECT name,rank ... WHERE name=?` returns the rows of the name; every
statement succeeds. -/
def RankTable.answer (chan : String) (t : RankTable) (sql : String) (params : List Prim) :
    Err × Option (List Row) :=
  if sql = rankSelectSql chan then
    match params with
    | [name] =>
      (none, some ((t.filter fun p => p.1 == name).map fun p =>
        [("name", p.1), ("rank", .num p.2)]))
    | _ => (none, some [])
  else (none, some [])

/-- The environment in which `db.query` is answered by the rank table `t`. -/
def RankTable.env (chan : String) (t : RankTable) : Env :=
  { query := t.answer chan, createChannelTables := fun _ => none,
    getGlobalRank := fun _ => (none, 0), now := 0 }

/-- The rank table after the statements of a trace, in the order of the trace. -/
def RankTable.apply (chan : String) (t : RankTable) (trace : Trace) : RankTable :=
  trace.foldl (fun t e =>
    match e with
    | .query sql params => t.exec chan sql params
    | _ => t) t

/-- A call of one of the mutating operations of the rank store. -/
inductive RankOp where
  | setRank (name : Prim) (rank : Int)
  | newRank (name : Prim) (rank : Int)
  | deleteRank (name : Prim)
  deriving DecidableEq, Repr

/-- The rank table of `chan` after one call. -/
def RankOp.run (chan : String) (t : RankTable) : RankOp → RankTable
  | .setRank name rank => t.apply chan (Sync.setRank (t.env chan) (.str chan) name rank none)
  | .newRank name rank => t.apply chan (Sync.newRank (t.env chan) (.str chan) name rank none)
  | .deleteRank name => t.apply chan (Sync.deleteRank (t.env chan) (.str chan) name none)

/-- The rank table of `chan` after a sequence of calls. -/
def runRankOps (chan : String) (t : RankTable) (ops : List RankOp) : RankTable :=
  ops.foldl (RankOp.run chan) t

/-- Modelled from the spec: a row of a table `chan_<name>_bans(id, ip, name,
reason, bannedby)`, whose schema (`lib/database/tables.js`) is not part of the
sources at hand; `id` is assigned by the database and left out. -/
structure BanRow where
  ip : Prim
  name : Prim
  reason : Prim
  bannedby : Prim
  deriving DecidableEq, Repr

/-- The rows of a ban table. -/
abbrev BanTable := List BanRow

/-- The statement issued by `ban`. -/
def banInsertSql (chan : String) : String :=
  "INSERT INTO `chan_" ++ chan ++ "_bans` (ip, name, reason, bannedby) " ++
    "VALUES (?, ?, ?, ?)"

/-- The statement issued by `isIPBanned`. -/
def banSelectIpSql (chan : String) : String :=
  "SELECT * FROM `chan_" ++ chan ++ "_bans` WHERE ip=? OR ip=?"

/-- Modelled from the spec: the effect of a statement on the ban table of `chan`:
the insert of `ban` adds a row. -/
def BanTable.exec (chan : String) (t : BanTable) (sql : String) (params : List Prim) :
    BanTable :=
  if sql = banInsertSql chan then
    match params with
    | [ip, name, reason, bannedby] => t ++ [⟨ip, name, reason, bannedby⟩]
    | _ => t
  else t

/-- A ban row as `db.query` returns it. -/
def BanRow.toRow (r : BanRow) : Row :=
  [("ip", r.ip), ("name", r.name), ("reason", r.reason), ("bannedby", r.bannedby)]

/-- Modelled from the spec: the response of the ban table of `chan` to a statement.
`SELECT * ... WHERE ip=? OR ip=?` returns the rows whose `ip` equals one of the two
parameters; every statement succeeds. -/
def BanTable.answer (chan : String) (t : BanTable) (sql : String) (params : List Prim) :
    Err × Option (List Row) :=
  if sql = banSelectIpSql chan then
    match params with
    | [ip, range] =>
      (none, some ((t.filter fun r => r.ip == ip || r.ip == range).map BanRow.toRow))
    | _ => (none, some [])
  else (none, some [])

/-- The environment in which `db.query` is answered by the ban table `t`. -/
def BanTable.env (chan : String) (t : BanTable) : Env :=
  { query := t.answer chan, createChannelTables := fun _ => none,
    getGlobalRank := fun _ => (none, 0), now := 0 }

/-- The ban table after the statements of a trace, in the order of the trace. -/
def BanTable.apply (chan : String) (t : BanTable) (trace : Trace) : BanTable :=
  trace.foldl (fun t e =>
    match e with
    | .query sql params => t.exec chan sql params
    | _ => t) t

/-- The dotted address with the octets `a`, `b`, `c`, `d`. -/
def dotted4 (a b c d : List Char) : String :=
  String.mk (a ++ '.' :: (b ++ '.' :: (c ++ '.' :: d)))

/-- The three leading octets `a.b.c`. -/
def dotted3 (a b c : List Char) : String :=
  String.mk (a ++ '.' :: (b ++ '.' :: c))

/-- The pattern `a.b.c.*`. -/
def dottedStar (a b c : List Char) : String :=
  String.mk (a ++ '.' :: (b ++ '.' :: (c ++ ['.', '*'])))

/-- An account with the global rank 255. -/
def adminAccount : Account :=
  { name := "root", lowername := "root", globalRank := 255, channelRank := 255,
    effectiveRank := 255 }

/-- A session bound to the live channel `room` and logged in as `root`. -/
def adminInRoom : User :=
  { flags := 0, loggingIn := false, ip := "10.0.0.1", account := adminAccount,
    channel := some { name := "room", dead := false, users := ["root"] } }

/-- A new session whose address issued a guest login at time 1000. -/
def cooledSession : World :=
  { newSession with lastguestlogin := [("10.0.0.1", 1000)] }

/-- The integer a callback result holds when it is a number; `none` for `null`,
`undefined` and every other value. -/
def Res.asRank : Res → Option Int
  | .num n => some n
  | .prim (.num n) => some n
  | _ => none

/-- The database is down: every statement reports an error and returns nothing. -/
def envDbDown : Env :=
  { query := fun _ _ => (some "Database failure", none), createChannelTables := fun _ => none,
    getGlobalRank := fun _ => (none, 3), now := 1000 }

/-- A guest session whose address logged in at time 1000 and whose lookup of the
name `bob` is pending. -/
def lookupPending : World :=
  { newSession with
    lastguestlogin := [("10.0.0.1", 1000)], pending := [.isUsernameTaken "bob"] }

/-- A session in the live channel `room`, where the user `élise` is present, whose
lookup of the name `ÉLISE` is pending. -/
def accentedPending : World :=
  { newSession with
    user := { newSession.user with
      channel := some { name := "room", dead := false, users := ["élise"] } },
    lastguestlogin := [("10.0.0.1", 1000)], pending := [.isUsernameTaken "ÉLISE"] }

/-- The invariant behind the exclusion of the two login flags: the flag word is
`0` and every message was emitted under the flag word `0`. -/
def FlagsStayZero (w : World) : Prop :=
  w.user.flags = 0 ∧ ∀ s ∈ w.sent, s.flags = 0

/-! ## Session flags -/

/-- The word `0 & b` is `0`. -/
theorem bitAnd_zero_left (b : Nat) : bitAnd 0 b = 0 := by
  simp [bitAnd, toWord]

/-- The flag setter never turns a flag on: a flag that tests true after
`setFlag(flag)` tested true before. -/
theorem setFlag_never_sets (u : User) (flag g : Nat)
    (h : (u.setFlag flag).is g = true) : u.is g = true := by
  simp only [User.is, User.setFlag, bitAnd, bne_iff_ne, ne_eq] at h ⊢
  intro h0
  apply h
  have hw : toWord (toWord u.flags &&& toWord flag) = toWord u.flags &&& toWord flag := by
    unfold toWord
    apply Nat.mod_eq_of_lt
    exact lt_of_le_of_lt Nat.and_le_left (Nat.mod_lt _ (by norm_num))
  rw [hw, Nat.land_assoc, Nat.land_comm (toWord flag), ← Nat.land_assoc, h0]
  simp

/-- C1 (fails on the code): `setFlag(f)` computes `flags & f`. On the empty flag
word `setFlag(LOGGED_IN)` leaves `LOGGED_IN` unset; on the word `READY | IN_CHANNEL`
it also clears `READY` and `IN_CHANNEL`; and after a complete successful login
(message, verified credentials, resolved account, success emitted) `LOGGED_IN` is
still not set. -/
theorem setFlag_fails_to_set :
    (User.setFlag ⟨0, false, "10.0.0.1", anonAccount, none⟩ User.LOGGED_IN).is
        User.LOGGED_IN = false ∧
    User.is ⟨65, false, "10.0.0.1", anonAccount, none⟩ User.READY = true ∧
    User.is ⟨65, false, "10.0.0.1", anonAccount, none⟩ User.IN_CHANNEL = true ∧
    (User.setFlag ⟨65, false, "10.0.0.1", anonAccount, none⟩ User.LOGGED_IN).flags = 0 ∧
    (run sampleConfig newSession
        [.loginMsg 0 (loginPayload "alice" "secret"), .verifyLoginDone 0 none "alice",
         .getAccountDone 0 none aliceAccount]).sent =
      [⟨.loginSuccess "alice" false, 0⟩, ⟨.rank 1, 0⟩] ∧
    (run sampleConfig newSession
        [.loginMsg 0 (loginPayload "alice" "secret"), .verifyLoginDone 0 none "alice",
         .getAccountDone 0 none aliceAccount]).user.is User.LOGGED_IN = false := by
  decide

/-- C2 (fails on the code): a second `"login"` message that arrives while the first
attempt is still pending is not ignored. With a password the session ends up with
two pending credential verifications; without one, with two pending user name
lookups; in both cases `LOGGING_IN` is not set after the first message. -/
theorem second_login_not_ignored :
    (run sampleConfig newSession [.loginMsg 0 (loginPayload "alice" "secret")]).user.is
        User.LOGGING_IN = false ∧
    (run sampleConfig newSession
        [.loginMsg 0 (loginPayload "alice" "secret"),
         .loginMsg 1 (loginPayload "alice" "secret")]).pending =
      [.verifyLogin "alice" "secret", .verifyLogin "alice" "secret"] ∧
    (run sampleConfig newSession [.loginMsg 0 (guestPayload "bob")]).user.is
        User.LOGGING_IN = false ∧
    (run sampleConfig newSession
        [.loginMsg 0 (guestPayload "bob"), .loginMsg 1 (guestPayload "bob")]).pending =
      [.isUsernameTaken "bob", .isUsernameTaken "bob"] := by
  decide

theorem flagsStayZero_init (ip : String) (account : Account) :
    FlagsStayZero (World.init ip account) := by
  simp [FlagsStayZero, World.init]

theorem flagsStayZero_emit (w : World) (m : Msg) (h : FlagsStayZero w) :
    FlagsStayZero (w.emit m) := by
  obtain ⟨h0, hs⟩ := h
  refine ⟨h0, ?_⟩
  intro s hmem
  simp only [World.emit, List.mem_append, List.mem_singleton] at hmem
  rcases hmem with hmem | rfl
  · exact hs s hmem
  · exact h0

theorem flagsStayZero_setFlag (w : World) (flag : Nat) (h : FlagsStayZero w) :
    FlagsStayZero (w.setFlag flag) := by
  obtain ⟨h0, hs⟩ := h
  exact ⟨by simp [World.setFlag, User.setFlag, h0, bitAnd_zero_left], hs⟩

theorem flagsStayZero_clearFlag (w : World) (flag : Nat) (h : FlagsStayZero w) :
    FlagsStayZero (w.clearFlag flag) := by
  obtain ⟨h0, hs⟩ := h
  exact ⟨by simp [World.clearFlag, User.clearFlag, h0, bitAnd_zero_left], hs⟩

theorem flagsStayZero_congr (w v : World) (h : FlagsStayZero w)
    (hf : v.user.flags = w.user.flags) (hs : v.sent = w.sent) : FlagsStayZero v := by
  obtain ⟨h0, hm⟩ := h
  exact ⟨hf.trans h0, by rw [hs]; exact hm⟩

theorem flagsStayZero_issue (w : World) (p : Pending) (h : FlagsStayZero w) :
    FlagsStayZero (w.issue p) :=
  flagsStayZero_congr w _ h rfl rfl

theorem flagsStayZero_onLoginEvent (w : World) (a : Account) (h : FlagsStayZero w) :
    FlagsStayZero (w.onLoginEvent a) := by
  unfold World.onLoginEvent
  split
  · exact flagsStayZero_congr w _ h rfl rfl
  · exact h

theorem flagsStayZero_login (w : World) (name pw : String) (h : FlagsStayZero w) :
    FlagsStayZero (login w name pw) :=
  flagsStayZero_congr w _ h rfl rfl

theorem flagsStayZero_guestLogin (cfg : Config) (now : Int) (w : World) (name : String)
    (h : FlagsStayZero w) : FlagsStayZero (guestLogin cfg now w name) := by
  unfold guestLogin
  dsimp only
  split
  · exact flagsStayZero_emit _ _ h
  · split
    · exact flagsStayZero_emit _ _ h
    · exact flagsStayZero_issue _ _ (flagsStayZero_setFlag _ _ h)

theorem flagsStayZero_loginVerified (w : World) (name : String) (err : Err)
    (userName : String) (h : FlagsStayZero w) :
    FlagsStayZero (loginVerified w name err userName) := by
  have h1 : FlagsStayZero { w with user := { w.user with loggingIn := false } } :=
    flagsStayZero_congr w _ h rfl rfl
  unfold loginVerified
  dsimp only
  split
  · split
    · exact flagsStayZero_congr _ _ h1 rfl rfl
    · exact flagsStayZero_emit _ _ h1
  · exact flagsStayZero_issue _ _ h1

theorem flagsStayZero_loginAccount (w : World) (userName : String) (err : Err)
    (account : Account) (h : FlagsStayZero w) :
    FlagsStayZero (loginAccount w userName err account) := by
  have h1 : FlagsStayZero { w with user := { w.user with account := account } } :=
    flagsStayZero_congr w _ h rfl rfl
  unfold loginAccount
  dsimp only
  split
  · exact h
  · exact flagsStayZero_onLoginEvent _ _ (flagsStayZero_setFlag _ _
      (flagsStayZero_emit _ _ (flagsStayZero_emit _ _ h1)))

theorem flagsStayZero_guestLoginChecked (cfg : Config) (now : Int) (w : World)
    (name : String) (err : Err) (taken : Bool) (h : FlagsStayZero w) :
    FlagsStayZero (guestLoginChecked cfg now w name err taken) := by
  have h1 := flagsStayZero_clearFlag w User.LOGGING_IN h
  unfold guestLoginChecked
  dsimp only
  split
  · exact flagsStayZero_emit _ _ h1
  · split
    · exact flagsStayZero_emit _ _ h1
    · split
      · exact flagsStayZero_emit _ _ h1
      · exact flagsStayZero_issue _ _ (flagsStayZero_congr _ _ h1 rfl rfl)

theorem flagsStayZero_guestLoginAccount (w : World) (name : String) (err : Err)
    (account : Account) (h : FlagsStayZero w) :
    FlagsStayZero (guestLoginAccount w name err account) := by
  have h1 : FlagsStayZero { w with user := { w.user with account := account } } :=
    flagsStayZero_congr w _ h rfl rfl
  unfold guestLoginAccount
  dsimp only
  split
  · exact h
  · exact flagsStayZero_onLoginEvent _ _ (flagsStayZero_setFlag _ _
      (flagsStayZero_emit _ _ (flagsStayZero_emit _ _ h1)))

theorem flagsStayZero_onLogin (cfg : Config) (now : Int) (w : World) (data : JsVal)
    (h : FlagsStayZero w) : FlagsStayZero (onLogin cfg now w data) := by
  unfold onLogin
  dsimp only
  split_ifs <;>
    first
      | exact h
      | exact flagsStayZero_congr w _ h rfl rfl
      | exact flagsStayZero_guestLogin _ _ _ _ h

theorem flagsStayZero_step (cfg : Config) (w : World) (st : Step) (h : FlagsStayZero w) :
    FlagsStayZero (step cfg w st) := by
  cases st with
  | setFlag flag => exact flagsStayZero_setFlag _ _ h
  | clearFlag flag => exact flagsStayZero_clearFlag _ _ h
  | login name pw => exact flagsStayZero_login _ _ _ h
  | guestLogin now name => exact flagsStayZero_guestLogin _ _ _ _ h
  | loginMsg now data => exact flagsStayZero_onLogin _ _ _ _ h
  | verifyLoginDone i err userName =>
    simp only [step]
    split
    · exact flagsStayZero_loginVerified _ _ _ _ (flagsStayZero_congr w _ h rfl rfl)
    · exact h
  | isUsernameTakenDone i now err taken =>
    simp only [step]
    split
    · exact flagsStayZero_guestLoginChecked _ _ _ _ _ _ (flagsStayZero_congr w _ h rfl rfl)
    · exact h
  | getAccountDone i err account =>
    simp only [step]
    split
    · exact flagsStayZero_loginAccount _ _ _ _ (flagsStayZero_congr w _ h rfl rfl)
    · exact flagsStayZero_guestLoginAccount _ _ _ _ (flagsStayZero_congr w _ h rfl rfl)
    · exact h
  | setChannel channel => exact flagsStayZero_congr w _ h rfl rfl

theorem flagsStayZero_run (cfg : Config) (steps : List Step) (w : World)
    (h : FlagsStayZero w) : FlagsStayZero (run cfg w steps) := by
  induction steps generalizing w with
  | nil => exact h
  | cons st rest ih => exact ih _ (flagsStayZero_step cfg w st h)

/-- C3: in every state reachable from a new session by any sequence of steps
(`setFlag`, `clearFlag`, `login`, `guestLogin`, `"login"` messages, completions of
pending calls, channel changes), `LOGGING_IN` and `LOGGED_IN` are not both set, and
every `"login"` outcome was emitted at a moment when `LOGGING_IN` was not set. -/
theorem login_flags_never_both (cfg : Config) (ip : String) (account : Account)
    (steps : List Step) :
    ¬ ((run cfg (World.init ip account) steps).user.is User.LOGGING_IN = true ∧
       (run cfg (World.init ip account) steps).user.is User.LOGGED_IN = true) ∧
    ∀ s ∈ (run cfg (World.init ip account) steps).sent,
      s.msg.isLoginOutcome = true → bitAnd s.flags User.LOGGING_IN = 0 := by
  obtain ⟨h0, hs⟩ := flagsStayZero_run cfg steps _ (flagsStayZero_init ip account)
  refine ⟨?_, ?_⟩
  · rintro ⟨h1, -⟩
    simp [User.is, h0, bitAnd_zero_left] at h1
  · intro s hmem _
    rw [hs s hmem]
    exact bitAnd_zero_left _

/-! ## Validation before persistence -/

/-- A valid name is a string. -/
theorem valid_isString (name : Prim) (h : valid name = true) : ∃ s, name = .str s := by
  cases name with
  | str s => exact ⟨s, rfl⟩
  | undefined => simp [valid, isValidChannelName] at h
  | null => simp [valid, isValidChannelName] at h
  | bool b => simp [valid, isValidChannelName] at h
  | num n => simp [valid, isValidChannelName] at h

/-- C4: for a channel name that fails the validator and a callback `k` that is a
function, every directory, rank-store and ban-store operation does nothing but
call `k` once with a validation error and `null`: its whole trace is the trace of
that one call, so no statement and no table drop is issued. For `register` the
error is the "required" message when name or owner is not a string and the
"Invalid channel name" message otherwise; for every other operation it is
`"Invalid channel name"`. -/
theorem invalid_name_rejected (env : Env) (name : Prim) (k : Callback)
    (h : valid name = false) :
    isChannelTaken env name (some k) = k (some "Invalid channel name") .null ∧
    lookup env name (some k) = k (some "Invalid channel name") .null ∧
    (∀ owner, register env name owner (some k) =
      k (some (if name.typeof != "string" || owner.typeof != "string" then
          "Name and owner are required for channel registration"
        else "Invalid channel name.  Channel names may consist of 1-30 " ++
          "characters a-z, A-Z, 0-9, -, and _")) .null) ∧
    drop env name (some k) = k (some "Invalid channel name") .null ∧
    (∀ uniqueName dead registered,
      load env ⟨name, uniqueName, dead, registered⟩ (some k) =
        (⟨name, uniqueName, dead, registered⟩, k (some "Invalid channel name") .null)) ∧
    (∀ member, getRank env name member (some k) = k (some "Invalid channel name") .null) ∧
    (∀ members, getRanks env name members (some k) = k (some "Invalid channel name") .null) ∧
    allRanks env name (some k) = k (some "Invalid channel name") .null ∧
    (∀ member rank, setRank env name member rank (some k) =
      k (some "Invalid channel name") .null) ∧
    (∀ member rank, newRank env name member rank (some k) =
      k (some "Invalid channel name") .null) ∧
    (∀ member, deleteRank env name member (some k) = k (some "Invalid channel name") .null) ∧
    (∀ ip member note bannedby, ban env name ip member note bannedby (some k) =
      k (some "Invalid channel name") .null) ∧
    (∀ ip, isIPBanned env name ip (some k) = k (some "Invalid channel name") .null) ∧
    (∀ member, isNameBanned env name member (some k) =
      k (some "Invalid channel name") .null) ∧
    listBans env name (some k) = k (some "Invalid channel name") .null ∧
    (∀ member, unbanName env name member (some k) = k (some "Invalid channel name") .null) ∧
    (∀ ip, unbanIP env name ip (some k) = k (some "Invalid channel name") .null) ∧
    (∀ id, unbanId env name id (some k) = k (some "Invalid channel name") .null) := by
  refine ⟨?_, ?_, ?_, ?_, ?_, ?_, ?_, ?_, ?_, ?_, ?_, ?_, ?_, ?_, ?_, ?_, ?_, ?_⟩
  · simp [isChannelTaken, h]
  · simp [lookup, h]
  · intro owner
    by_cases hs : (name.typeof != "string" || owner.typeof != "string") = true
    · simp only [register, Option.getD_some, hs, if_true]
    · simp only [register, Option.getD_some, hs, h, Bool.not_false, if_true]
      simp
  · simp [drop, h]
  · intro uniqueName dead registered
    simp [load, h]
  · intro member
    simp [getRank, h]
  · intro members
    simp [getRanks, h]
  · simp [allRanks, h]
  · intro member rank
    by_cases hr : rank < 2
    · simp [setRank, deleteRank, hr, h]
    · simp [setRank, hr, h]
  · intro member rank
    simp [newRank, h]
  · intro member
    simp [deleteRank, h]
  · intro ip member note bannedby
    simp [ban, h]
  · intro ip
    simp [isIPBanned, h]
  · intro member
    simp [isNameBanned, h]
  · simp [listBans, h]
  · intro member
    simp [unbanName, h]
  · intro ip
    simp [unbanIP, h]
  · intro id
    simp [unbanId, h]

/-- C4 at a concrete name: with the recording callback the trace of each operation
on the name `"no spaces!"` is the single callback event. -/
theorem invalid_name_rejected_witness :
    valid (.str "no spaces!") = false ∧
    isChannelTaken envAllGood (.str "no spaces!") (some record) =
      [Event.callback (some "Invalid channel name") .null] ∧
    setRank envAllGood (.str "no spaces!") (.str "alice") 3 (some record) =
      [Event.callback (some "Invalid channel name") .null] ∧
    unbanId envAllGood (.str "no spaces!") (.num 7) (some record) =
      [Event.callback (some "Invalid channel name") .null] :=
  have h := invalid_name_rejected envAllGood (.str "no spaces!") record (by decide)
  ⟨by decide, h.1, h.2.2.2.2.2.2.2.2.1 (.str "alice") 3,
    h.2.2.2.2.2.2.2.2.2.2.2.2.2.2.2.2.2 (.num 7)⟩

/-- The three library operations that validate the channel name. -/
theorem library_validated_operations (env : Env) (name : Prim) (k : Callback)
    (h : valid name = false) :
    (∀ media, addToLibrary env name media (some k) = k (some "Invalid channel name") .null) ∧
    (∀ id, getLibraryItem env name id (some k) = k (some "Invalid channel name") .null) ∧
    (∀ id, deleteFromLibrary env name id (some k) =
      k (some "Invalid channel name") .null) := by
  refine ⟨?_, ?_, ?_⟩
  · intro media
    simp [addToLibrary, h]
  · intro id
    simp [getLibraryItem, h]
  · intro id
    simp [deleteFromLibrary, h]

/-- C5 (fails on the code): `searchLibrary` does not validate the channel name. On
the invalid name `"no spaces!"` it issues the statement with the name spliced into
the table name, and the callback receives the database response instead of a
validation error. -/
theorem searchLibrary_skips_validation :
    valid (.str "no spaces!") = false ∧
    searchLibrary envAllGood (.str "no spaces!") (.str "song") (some record) =
      [Event.query "SELECT * FROM `chan_no spaces!_library` WHERE title LIKE ?"
          [.str "%song%"],
       Event.callback none (.rows [])] := by
  decide

/-! ## The provisioning saga -/

/-- C6: for a valid name and a string owner, when the existence check answers
without error and with at least one row, `register` issues the existence check and
then only calls the callback with the "already taken" error and `null`: no insert,
no table creation, no rank write, no table drop and no directory delete. -/
theorem register_taken_touches_nothing (env : Env) (name owner : Prim) (k : Callback)
    (rows : List Row)
    (hvalid : valid name = true) (howner : owner.typeof = "string")
    (herr : (env.query "SELECT name FROM `channels` WHERE name=?" [name]).1.truthy = false)
    (hrows : (env.query "SELECT name FROM `channels` WHERE name=?" [name]).2 = some rows)
    (htaken : rows.length > 0) :
    register env name owner (some k) =
      Event.query "SELECT name FROM `channels` WHERE name=?" [name] ::
        k (some ("Channel name " ++ name.toJsString ++ " is already taken")) .null := by
  obtain ⟨s, rfl⟩ := valid_isString name hvalid
  have hname : (Prim.str s).typeof = "string" := rfl
  have hnone : Err.truthy none = false := rfl
  simp [register, isChannelTaken, dbQuery, hvalid, howner, hname, herr, hrows, htaken,
    hnone, Res.truthy]

/-- C6 at a concrete input: the channel `room` is registered already. -/
theorem register_taken_touches_nothing_witness :
    valid (.str "room") = true ∧ (Prim.str "alice").typeof = "string" ∧
    register envTaken (.str "room") (.str "alice") (some record) =
      Event.query "SELECT name FROM `channels` WHERE name=?" [.str "room"] ::
        record (some ("Channel name " ++ (Prim.str "room").toJsString ++ " is already taken"))
          .null :=
  ⟨by decide, by decide,
    register_taken_touches_nothing envTaken (.str "room") (.str "alice") record
      [[("name", .str "room")]] (by decide) (by decide) (by decide) (by decide) (by decide)⟩

/-- C7: whenever `register(name, owner)` succeeds, its trace is the existence
check, the directory insert, the table creation, the rank lookup, and one rank
write, which is the upsert statement of `setRank` with the rank `max(g, 5)` for the
resolved global rank `g`; that rank is at least 5, so the guard `rank < 2` of the
delete branch of `setRank` is false. -/
theorem register_owner_rank (env : Env) (name owner : Prim)
    (h : Event.callback none (.created name) ∈ register env name owner (some record)) :
    register env name owner (some record) =
      [ Event.query "SELECT name FROM `channels` WHERE name=?" [name],
        Event.query ("INSERT INTO `channels` " ++ "(`name`, `owner`, `time`) VALUES (?, ?, ?)")
          [name, owner, .num env.now],
        Event.createChannelTables name,
        Event.getGlobalRank owner,
        Event.query ("INSERT INTO `chan_" ++ name.toJsString ++
            "_ranks` (name, rank) VALUES (?, ?) " ++ "ON DUPLICATE KEY UPDATE rank=?")
          [owner, .num (max (env.getGlobalRank owner).2 5),
            .num (max (env.getGlobalRank owner).2 5)],
        Event.callback none (.created name) ] ∧
    5 ≤ max (env.getGlobalRank owner).2 5 ∧
    ¬ max (env.getGlobalRank owner).2 5 < 2 := by
  refine ⟨?_, le_max_right _ _, by have := le_max_right (env.getGlobalRank owner).2 5; omega⟩
  have hnone : Err.truthy none = false := rfl
  have hrank : ¬ max (env.getGlobalRank owner).2 5 < 2 := by
    have := le_max_right (env.getGlobalRank owner).2 5; omega
  unfold register at h ⊢
  simp only [Option.getD_some] at h ⊢
  split_ifs at h ⊢ with h1 h2
  · simp [record] at h
  · simp [record] at h
  · have hv : valid name = true := by simpa using h2
    simp only [isChannelTaken, dbQuery, initTables, setRank, dropTable, passRows, hv, hrank,
      Bool.not_true, Option.getD_some, if_false, Bool.false_eq_true, hnone] at h ⊢
    rcases hq : (env.query "SELECT name FROM `channels` WHERE name=?" [name]).2 with _ | rs
    · split_ifs at h <;> simp_all [record]
    · simp only [hq] at h ⊢
      split_ifs at h ⊢ <;> simp_all [record, Res.truthy]

/-- C7 at a concrete input: the owner `alice` has global rank 3 and is written with
rank 5. -/
theorem register_owner_rank_witness :
    Event.callback none (.created (.str "room")) ∈
      register envAllGood (.str "room") (.str "alice") (some record) ∧
    register envAllGood (.str "room") (.str "alice") (some record) =
      [ Event.query "SELECT name FROM `channels` WHERE name=?" [.str "room"],
        Event.query "INSERT INTO `channels` (`name`, `owner`, `time`) VALUES (?, ?, ?)"
          [.str "room", .str "alice", .num 1000],
        Event.createChannelTables (.str "room"),
        Event.getGlobalRank (.str "alice"),
        Event.query
          "INSERT INTO `chan_room_ranks` (name, rank) VALUES (?, ?) ON DUPLICATE KEY UPDATE rank=?"
          [.str "alice", .num 5, .num 5],
        Event.callback none (.created (.str "room")) ] :=
  ⟨by decide, (register_owner_rank envAllGood (.str "room") (.str "alice") (by decide)).1⟩

/-- C8 (fails on the code): `initTables` drops the error of `createChannelTables`.
When table creation fails and the two later steps succeed, `register` reports
success and issues no delete of the directory record. -/
theorem register_ignores_table_creation_failure :
    valid (.str "room") = true ∧
    (envTablesFail.createChannelTables (.str "room")).truthy = true ∧
    register envTablesFail (.str "room") (.str "alice") (some record) =
      [ Event.query "SELECT name FROM `channels` WHERE name=?" [.str "room"],
        Event.query "INSERT INTO `channels` (`name`, `owner`, `time`) VALUES (?, ?, ?)"
          [.str "room", .str "alice", .num 1000],
        Event.createChannelTables (.str "room"),
        Event.getGlobalRank (.str "alice"),
        Event.query
          "INSERT INTO `chan_room_ranks` (name, rank) VALUES (?, ?) ON DUPLICATE KEY UPDATE rank=?"
          [.str "alice", .num 5, .num 5],
        Event.callback none (.created (.str "room")) ] := by
  decide

/-- C9 (fails on the code): when resolving the owner's global rank fails, `register`
issues the delete of the directory record and passes the original error, but it
issues no drop of the rank table and no drop of the library table. -/
theorem register_rank_lookup_failure_drops_nothing :
    valid (.str "room") = true ∧
    (envRankLookupFails.getGlobalRank (.str "alice")).1.truthy = true ∧
    register envRankLookupFails (.str "room") (.str "alice") (some record) =
      [ Event.query "SELECT name FROM `channels` WHERE name=?" [.str "room"],
        Event.query "INSERT INTO `channels` (`name`, `owner`, `time`) VALUES (?, ?, ?)"
          [.str "room", .str "alice", .num 1000],
        Event.createChannelTables (.str "room"),
        Event.getGlobalRank (.str "alice"),
        Event.query "DELETE FROM `channels` WHERE name=?" [.str "room"],
        Event.callback (some "Database failure") .null ] := by
  decide
/-- An error argument is falsy or a non-empty message. -/
theorem truthy_cases (e : Err) :
    e.truthy = false ∨ ∃ s, e = some s ∧ Err.truthy (some s) = true := by
  cases e with
  | none => exact Or.inl rfl
  | some s =>
    cases h : Err.truthy (some s) with
    | false => exact Or.inl rfl
    | true => exact Or.inr ⟨s, rfl, h⟩

/-- Appending to a truthy message keeps it truthy. -/
theorem truthy_append (a b : String) (h : Err.truthy (some a) = true) :
    Err.truthy (some (a ++ b)) = true := by
  simp only [Err.truthy, bne_iff_ne, ne_eq] at h ⊢
  intro hab
  apply h
  have := congrArg String.length hab
  simp at this
  exact String.ext (by simpa [← List.length_eq_zero] using this.1)

/-- The error accumulated by `drop` over its four steps: falsy when no step
reported an error, and otherwise the reported errors joined by newlines. -/
theorem joinErr_chain (e1 e2 e3 e4 : Err) :
    ((([e1, e2, e3, e4].filter Err.truthy).map fun e => e.getD "") = [] →
      (joinErr (joinErr (joinErr e1 e2) e3) e4).truthy = false) ∧
    ((([e1, e2, e3, e4].filter Err.truthy).map fun e => e.getD "") ≠ [] →
      joinErr (joinErr (joinErr e1 e2) e3) e4 =
          some ("\n".intercalate (([e1, e2, e3, e4].filter Err.truthy).map fun e => e.getD "")) ∧
        (joinErr (joinErr (joinErr e1 e2) e3) e4).truthy = true) := by
  rcases truthy_cases e1 with h1 | ⟨s1, rfl, h1⟩ <;>
    rcases truthy_cases e2 with h2 | ⟨s2, rfl, h2⟩ <;>
    rcases truthy_cases e3 with h3 | ⟨s3, rfl, h3⟩ <;>
    rcases truthy_cases e4 with h4 | ⟨s4, rfl, h4⟩ <;>
    simp [joinErr, List.filter_cons, truthy_append,
      String.intercalate, String.intercalate.go, String.append_assoc, *]

/-- C10: for a valid name, `drop(name)` issues the drop of the rank table, of the
ban table, of the library table and the delete of the directory record, in that
order and whatever the earlier steps reported, then removes the channel dump and
calls the callback once. The success flag is `true` exactly when no step reported
an error; otherwise the error is the step errors joined by newlines in step
order. -/
theorem drop_issues_every_step (env : Env) (name : Prim) (k : Callback)
    (h : valid name = true) :
    ∃ err : Err,
      drop env name (some k) =
        Event.query ("DROP TABLE `" ++ ("chan_" ++ name.toJsString ++ "_ranks") ++ "`") [] ::
        Event.query ("DROP TABLE `" ++ ("chan_" ++ name.toJsString ++ "_bans") ++ "`") [] ::
        Event.query ("DROP TABLE `" ++ ("chan_" ++ name.toJsString ++ "_library") ++ "`") [] ::
        Event.query "DELETE FROM `channels` WHERE name=?" [name] ::
        Event.unlink name ::
        k err (.bool (decide (dropErrors env name = []))) ∧
      (dropErrors env name = [] → err.truthy = false) ∧
      (dropErrors env name ≠ [] → err = some ("\n".intercalate (dropErrors env name))) := by
  obtain ⟨h0, h1⟩ := joinErr_chain
    (env.query ("DROP TABLE `" ++ ("chan_" ++ name.toJsString ++ "_ranks") ++ "`") []).1
    (env.query ("DROP TABLE `" ++ ("chan_" ++ name.toJsString ++ "_bans") ++ "`") []).1
    (env.query ("DROP TABLE `" ++ ("chan_" ++ name.toJsString ++ "_library") ++ "`") []).1
    (env.query "DELETE FROM `channels` WHERE name=?" [name]).1
  refine ⟨_, ?_, h0, fun hne => (h1 hne).1⟩
  simp only [drop, dropTable, dbQuery, Option.getD_some, h, Bool.not_true, Option.map_some',
    Bool.false_eq_true, if_false]
  by_cases hd : dropErrors env name = []
  · rw [h0 hd]
    simp [hd]
  · rw [(h1 hd).2]
    simp [hd]

/-- C10 at a concrete input: the drop of the ban table and the directory delete
fail, every step is still issued, and the callback receives both errors joined by a
newline and the flag `false`. -/
theorem drop_issues_every_step_witness :
    valid (.str "room") = true ∧
    dropErrors envFlaky (.str "room") = ["Unknown table", "Lock wait timeout"] ∧
    ∃ err : Err,
      drop envFlaky (.str "room") (some record) =
        Event.query ("DROP TABLE `" ++ ("chan_" ++ (Prim.str "room").toJsString ++ "_ranks") ++
          "`") [] ::
        Event.query ("DROP TABLE `" ++ ("chan_" ++ (Prim.str "room").toJsString ++ "_bans") ++
          "`") [] ::
        Event.query ("DROP TABLE `" ++ ("chan_" ++ (Prim.str "room").toJsString ++
          "_library") ++ "`") [] ::
        Event.query "DELETE FROM `channels` WHERE name=?" [.str "room"] ::
        Event.unlink (.str "room") ::
        record err (.bool (decide (dropErrors envFlaky (.str "room") = []))) ∧
      (dropErrors envFlaky (.str "room") = [] → err.truthy = false) ∧
      (dropErrors envFlaky (.str "room") ≠ [] →
        err = some ("\n".intercalate (dropErrors envFlaky (.str "room")))) :=
  ⟨by decide, by decide, drop_issues_every_step envFlaky (.str "room") record (by decide)⟩

/-- The compensation `register` performs by its code when writing the owner's rank
fails: the rank table is dropped twice, the library table once, the ban table not
at all, then the directory record is deleted and the error of the rank write is
passed to the callback. -/
theorem register_rank_write_failure_compensation (env : Env) (name owner : Prim)
    (k : Callback) (hvalid : valid name = true) (howner : owner.typeof = "string")
    (hsel : (env.query "SELECT name FROM `channels` WHERE name=?" [name]).1.truthy = false)
    (hrows : (env.query "SELECT name FROM `channels` WHERE name=?" [name]).2 = some [])
    (hins : (env.query ("INSERT INTO `channels` " ++
      "(`name`, `owner`, `time`) VALUES (?, ?, ?)") [name, owner, .num env.now]).1.truthy = false)
    (hrank : (env.getGlobalRank owner).1.truthy = false)
    (hset : (env.query ("INSERT INTO `chan_" ++ name.toJsString ++
        "_ranks` (name, rank) VALUES (?, ?) " ++ "ON DUPLICATE KEY UPDATE rank=?")
      [owner, .num (max (env.getGlobalRank owner).2 5),
        .num (max (env.getGlobalRank owner).2 5)]).1.truthy = true) :
    register env name owner (some k) =
      Event.query "SELECT name FROM `channels` WHERE name=?" [name] ::
      Event.query ("INSERT INTO `channels` " ++ "(`name`, `owner`, `time`) VALUES (?, ?, ?)")
        [name, owner, .num env.now] ::
      Event.createChannelTables name ::
      Event.getGlobalRank owner ::
      Event.query ("INSERT INTO `chan_" ++ name.toJsString ++
          "_ranks` (name, rank) VALUES (?, ?) " ++ "ON DUPLICATE KEY UPDATE rank=?")
        [owner, .num (max (env.getGlobalRank owner).2 5),
          .num (max (env.getGlobalRank owner).2 5)] ::
      Event.query ("DROP TABLE `" ++ ("chan_" ++ name.toJsString ++ "_ranks") ++ "`") [] ::
      Event.query ("DROP TABLE `" ++ ("chan_" ++ name.toJsString ++ "_ranks") ++ "`") [] ::
      Event.query ("DROP TABLE `" ++ ("chan_" ++ name.toJsString ++ "_library") ++ "`") [] ::
      Event.query "DELETE FROM `channels` WHERE name=?" [name] ::
      k (env.query ("INSERT INTO `chan_" ++ name.toJsString ++
          "_ranks` (name, rank) VALUES (?, ?) " ++ "ON DUPLICATE KEY UPDATE rank=?")
        [owner, .num (max (env.getGlobalRank owner).2 5),
          .num (max (env.getGlobalRank owner).2 5)]).1 .null := by
  obtain ⟨s, rfl⟩ := valid_isString name hvalid
  have hname : (Prim.str s).typeof = "string" := rfl
  have hnone : Err.truthy none = false := rfl
  have hmax : ¬ max (env.getGlobalRank owner).2 5 < 2 := by
    have := le_max_right (env.getGlobalRank owner).2 5; omega
  simp only [String.reduceAppend] at hins
  simp [register, isChannelTaken, initTables, setRank, dropTable, dbQuery, passRows, hvalid,
    howner, hname, hsel, hrows, hins, hrank, hset, hmax, hnone, Res.truthy]

/-! ## The rank store -/

/-- The rows the rank table returns carry an integer rank. -/
theorem rankTable_answer_wellFormed (chan : String) (t : RankTable) (name : Prim) :
    ∃ rs, ((t.env chan).query (rankSelectSql chan) [name]).2 = some rs ∧
      ∀ row ∈ rs, ∃ n : Int, row.col "rank" = .num n := by
  refine ⟨(t.filter fun p => p.1 == name).map fun p => [("name", p.1), ("rank", .num p.2)],
    by simp [RankTable.env, RankTable.answer], ?_⟩
  intro row hrow
  simp only [List.mem_map] at hrow
  obtain ⟨p, -, rfl⟩ := hrow
  exact ⟨p.2, by simp [Row.col, List.lookup]⟩

/-- When the lookup of `getRank` reports no error and hands over no row list at
all, reading `rows.length` throws and the callback is not called. -/
theorem getRank_null_rows (env : Env) (chan : String) (name : Prim) (k : Callback)
    (hvalid : valid (.str chan) = true)
    (herr : (env.query (rankSelectSql chan) [name]).1.truthy = false)
    (hrows : (env.query (rankSelectSql chan) [name]).2 = none) :
    getRank env (.str chan) name (some k) =
      [Event.query (rankSelectSql chan) [name], Event.typeError] := by
  have hsql : "SELECT name,rank FROM `chan_" ++ (Prim.str chan).toJsString ++
      "_ranks` WHERE name=?" = rankSelectSql chan := rfl
  simp only [getRank, dbQuery, hvalid, Bool.not_true, Bool.false_eq_true, if_false, hsql,
    herr, hrows]

/-- C11: let the channel name be valid and let the lookup answer as the database
does: with an error, or with a list of rows of the rank table, each holding an
integer rank. Then `getRank` issues its lookup and calls the callback exactly once,
and the rank it passes is a number, never `null` or absent: it is `1` when the lookup
reports an error, `1` when the lookup returns no row, and the rank stored in the
first returned row otherwise. -/
theorem getRank_defaults_to_one (env : Env) (chan : String) (name : Prim) (k : Callback)
    (hvalid : valid (.str chan) = true)
    (hresp : (env.query (rankSelectSql chan) [name]).1.truthy = true ∨
      ∃ rs, (env.query (rankSelectSql chan) [name]).2 = some rs ∧
        ∀ row ∈ rs, ∃ n : Int, row.col "rank" = .num n) :
    ∃ (e : Err) (res : Res) (v : Int),
      getRank env (.str chan) name (some k) =
        Event.query (rankSelectSql chan) [name] :: k e res ∧
      res.asRank = some v ∧ res ≠ .null ∧ res ≠ .prim .null ∧ res ≠ .prim .undefined ∧
      ((env.query (rankSelectSql chan) [name]).1.truthy = true →
        e = (env.query (rankSelectSql chan) [name]).1 ∧ res = .num 1) ∧
      ((env.query (rankSelectSql chan) [name]).1.truthy = false →
        e = none ∧
        ((env.query (rankSelectSql chan) [name]).2 = some [] → res = .num 1) ∧
        (∀ row rest, (env.query (rankSelectSql chan) [name]).2 = some (row :: rest) →
          res = .prim (row.col "rank") ∧ row.col "rank" = .num v)) := by
  have hsql : "SELECT name,rank FROM `chan_" ++ (Prim.str chan).toJsString ++
      "_ranks` WHERE name=?" = rankSelectSql chan := rfl
  by_cases herr : (env.query (rankSelectSql chan) [name]).1.truthy = true
  · refine ⟨(env.query (rankSelectSql chan) [name]).1, .num 1, 1, ?_, rfl, by simp, by simp,
      by simp, fun _ => ⟨rfl, rfl⟩, fun h => absurd herr (by simp [h])⟩
    simp only [getRank, dbQuery, hvalid, Bool.not_true, Bool.false_eq_true, if_false, hsql,
      herr, if_true]
  · have herr2 : (env.query (rankSelectSql chan) [name]).1.truthy = false := by
      simpa using herr
    rcases hresp with h | ⟨rs, hrs, hwf⟩
    · exact absurd h herr
    · cases rs with
      | nil =>
        refine ⟨none, .num 1, 1, ?_, rfl, by simp, by simp, by simp,
          fun h => absurd h herr, fun _ => ⟨rfl, fun _ => rfl, ?_⟩⟩
        · simp only [getRank, dbQuery, hvalid, Bool.not_true, Bool.false_eq_true, if_false,
            hsql, herr2, hrs]
        · intro row rest h
          rw [hrs] at h
          simp at h
      | cons row0 rest0 =>
        obtain ⟨v, hv⟩ := hwf row0 (by simp)
        refine ⟨none, .prim (row0.col "rank"), v, ?_, by simp [hv, Res.asRank],
          by simp, by simp [hv], by simp [hv],
          fun h => absurd h herr, fun _ => ⟨rfl, ?_, ?_⟩⟩
        · simp only [getRank, dbQuery, hvalid, Bool.not_true, Bool.false_eq_true, if_false,
            hsql, herr2, hrs]
        · intro h
          rw [hrs] at h
          simp at h
        · intro row rest h
          rw [hrs] at h
          simp only [Option.some.injEq, List.cons.injEq] at h
          obtain ⟨rfl, -⟩ := h
          exact ⟨rfl, hv⟩

/-- C11 at concrete inputs: when the database is down `getRank` passes the error
and the rank 1; on the rank table of `room` it passes 1 for `bob`, who has no row,
and 3 for `alice`, who holds rank 3. -/
theorem getRank_defaults_to_one_witness :
    valid (.str "room") = true ∧
    (envDbDown.query (rankSelectSql "room") [.str "bob"]).1.truthy = true ∧
    getRank envDbDown (.str "room") (.str "bob") (some record) =
      [Event.query "SELECT name,rank FROM `chan_room_ranks` WHERE name=?" [.str "bob"],
       Event.callback (some "Database failure") (.num 1)] ∧
    getRank (RankTable.env "room" [(.str "alice", 3)]) (.str "room") (.str "bob")
        (some record) =
      [Event.query "SELECT name,rank FROM `chan_room_ranks` WHERE name=?" [.str "bob"],
       Event.callback none (.num 1)] ∧
    getRank (RankTable.env "room" [(.str "alice", 3)]) (.str "room") (.str "alice")
        (some record) =
      [Event.query "SELECT name,rank FROM `chan_room_ranks` WHERE name=?" [.str "alice"],
       Event.callback none (.prim (.num 3))] ∧
    (∃ (e : Err) (res : Res) (v : Int),
      getRank envDbDown (.str "room") (.str "bob") (some record) =
        Event.query (rankSelectSql "room") [.str "bob"] :: record e res ∧
      res.asRank = some v ∧ res = .num 1) ∧
    (∃ (e : Err) (res : Res) (v : Int),
      getRank (RankTable.env "room" [(.str "alice", 3)]) (.str "room") (.str "bob")
          (some record) =
        Event.query (rankSelectSql "room") [.str "bob"] :: record e res ∧
      res.asRank = some v ∧ res = .num 1) ∧
    (∃ (e : Err) (res : Res) (v : Int),
      getRank (RankTable.env "room" [(.str "alice", 3)]) (.str "room") (.str "alice")
          (some record) =
        Event.query (rankSelectSql "room") [.str "alice"] :: record e res ∧
      res.asRank = some v ∧
      res = .prim (Row.col [("name", .str "alice"), ("rank", .num 3)] "rank")) := by
  refine ⟨by decide, by decide, by decide, by decide, by decide, ?_, ?_, ?_⟩
  · obtain ⟨e, res, v, h1, h2, -, -, -, h3, -⟩ :=
      getRank_defaults_to_one envDbDown "room" (.str "bob") record (by decide)
        (Or.inl (by decide))
    exact ⟨e, res, v, h1, h2, (h3 (by decide)).2⟩
  · obtain ⟨e, res, v, h1, h2, -, -, -, -, h4⟩ :=
      getRank_defaults_to_one (RankTable.env "room" [(.str "alice", 3)]) "room" (.str "bob")
        record (by decide) (Or.inr (rankTable_answer_wellFormed "room" _ _))
    exact ⟨e, res, v, h1, h2, (h4 (by decide)).2.1 (by decide)⟩
  · obtain ⟨e, res, v, h1, h2, -, -, -, -, h4⟩ :=
      getRank_defaults_to_one (RankTable.env "room" [(.str "alice", 3)]) "room"
        (.str "alice") record (by decide) (Or.inr (rankTable_answer_wellFormed "room" _ _))
    exact ⟨e, res, v, h1, h2,
      ((h4 (by decide)).2.2 [("name", .str "alice"), ("rank", .num 3)] [] (by decide)).1⟩

/-- The storing statement of `setRank` is not the statement of `deleteRank`. -/
theorem rankUpsertSql_ne_delete (chan : String) : rankUpsertSql chan ≠ rankDeleteSql chan := by
  intro h
  have h2 := congrArg (fun s => s.data.head?) h
  simp [rankUpsertSql, rankDeleteSql, String.data_append] at h2

/-- With no callback `deleteRank` on a valid channel is its one statement. -/
theorem deleteRank_trace (env : Env) (chan : String) (u : Prim)
    (hvalid : valid (.str chan) = true) :
    deleteRank env (.str chan) u none = [Event.query (rankDeleteSql chan) [u]] := by
  simp [deleteRank, dbQuery, passRows, blackHole, hvalid, rankDeleteSql, Prim.toJsString]

/-- With no callback the storing branch of `setRank` on a valid channel is its one
statement. -/
theorem setRank_trace (env : Env) (chan : String) (u : Prim) (r : Int)
    (hvalid : valid (.str chan) = true) (hr : 2 ≤ r) :
    setRank env (.str chan) u r none =
      [Event.query (rankUpsertSql chan) [u, .num r, .num r]] := by
  have hlt : ¬ r < 2 := by omega
  simp [setRank, dbQuery, passRows, blackHole, hvalid, hlt, rankUpsertSql, Prim.toJsString]

/-- After the delete of a name its rows are gone. -/
theorem exec_delete (chan : String) (t : RankTable) (u : Prim) :
    t.exec chan (rankDeleteSql chan) [u] = t.filter fun p => p.1 != u := by
  simp [RankTable.exec]

/-- After the upsert of a name every row of the name holds the new rank, and there
is such a row. -/
theorem exec_upsert (chan : String) (t : RankTable) (u : Prim) (r : Int) :
    (∀ p ∈ t.exec chan (rankUpsertSql chan) [u, .num r, .num r], p.1 = u → p.2 = r) ∧
    ∃ p ∈ t.exec chan (rankUpsertSql chan) [u, .num r, .num r], p.1 = u := by
  simp only [RankTable.exec, rankUpsertSql_ne_delete, if_false, if_true]
  by_cases hany : (t.any fun p => p.1 == u) = true
  · rw [if_pos hany]
    constructor
    · intro p hp hu
      simp only [List.mem_map] at hp
      obtain ⟨q, hq, rfl⟩ := hp
      by_cases hqu : (q.1 == u) = true
      · simp [hqu]
      · simp [hqu] at hu ⊢
        simp [hu] at hqu
    · simp only [List.any_eq_true] at hany
      obtain ⟨q, hq, hqu⟩ := hany
      refine ⟨(q.1, r), ?_, by simpa using hqu⟩
      simp only [List.mem_map]
      exact ⟨q, hq, by simp [hqu]⟩
  · rw [if_neg hany]
    constructor
    · intro p hp hu
      simp only [List.mem_append, List.mem_singleton] at hp
      rcases hp with hp | rfl
      · exfalso
        apply hany
        simp only [List.any_eq_true]
        exact ⟨p, hp, by simp [hu]⟩
      · rfl
    · exact ⟨(u, r), by simp, rfl⟩

/-- The answer of `getRank` on the rank table: `1` when the name has no row, and
the rank of its first row otherwise. -/
theorem getRank_on_table (chan : String) (t : RankTable) (u : Prim)
    (hvalid : valid (.str chan) = true) :
    getRank (t.env chan) (.str chan) u (some record) =
      [Event.query (rankSelectSql chan) [u],
       Event.callback none
        (match t.filter fun p => p.1 == u with
         | [] => .num 1
         | p :: _ => .prim (.num p.2))] := by
  have hq : (t.env chan).query (rankSelectSql chan) [u] =
      (none, some ((t.filter fun p => p.1 == u).map fun p =>
        [("name", p.1), ("rank", .num p.2)])) := by
    simp [RankTable.env, RankTable.answer]
  have hsql : "SELECT name,rank FROM `chan_" ++ (Prim.str chan).toJsString ++
      "_ranks` WHERE name=?" = rankSelectSql chan := rfl
  simp only [getRank, dbQuery, hvalid, Bool.not_true, Bool.false_eq_true, if_false, hsql, hq]
  have hnone : Err.truthy none = false := rfl
  simp only [hnone, Bool.false_eq_true, if_false]
  cases hf : (t.filter fun p => p.1 == u) with
  | nil => simp [record]
  | cons p rest => simp [record, Row.col, List.lookup]

/-- C12: on a valid channel `setRank(c, u, r)` with `r < 2` is `deleteRank(c, u)`:
its only statement is the delete of the rows of `u`, so afterwards the rank table
holds no row for `u` and `getRank(c, u)` passes `1`. With `r >= 2`, `getRank(c, u)`
after `setRank(c, u, r)` passes `r`. -/
theorem setRank_then_getRank (chan : String) (t : RankTable) (u : Prim) (r : Int)
    (hvalid : valid (.str chan) = true) :
    (r < 2 →
      (∀ (env : Env) (callback : Option Callback),
        setRank env (.str chan) u r callback = deleteRank env (.str chan) u callback) ∧
      (∀ env : Env, setRank env (.str chan) u r none =
        [Event.query (rankDeleteSql chan) [u]]) ∧
      (∀ p ∈ RankOp.run chan t (.setRank u r), p.1 ≠ u) ∧
      getRank ((RankOp.run chan t (.setRank u r)).env chan) (.str chan) u (some record) =
        [Event.query (rankSelectSql chan) [u], Event.callback none (.num 1)]) ∧
    (2 ≤ r →
      getRank ((RankOp.run chan t (.setRank u r)).env chan) (.str chan) u (some record) =
        [Event.query (rankSelectSql chan) [u], Event.callback none (.prim (.num r))]) := by
  constructor
  · intro hr
    have hdel : ∀ (env : Env) (callback : Option Callback),
        setRank env (.str chan) u r callback = deleteRank env (.str chan) u callback := by
      intro env callback
      simp [setRank, deleteRank, hr]
    have hrun : RankOp.run chan t (.setRank u r) = t.filter fun p => p.1 != u := by
      simp only [RankOp.run, hdel, deleteRank_trace _ chan u hvalid, RankTable.apply,
        List.foldl_cons, List.foldl_nil, exec_delete]
    refine ⟨hdel, fun env => by rw [hdel, deleteRank_trace env chan u hvalid], ?_, ?_⟩
    · intro p hp
      rw [hrun] at hp
      simpa using (List.mem_filter.mp hp).2
    · rw [getRank_on_table chan _ u hvalid, hrun]
      have hnil : ((t.filter fun p => p.1 != u).filter fun p => p.1 == u) = [] := by
        simp only [List.filter_filter, List.filter_eq_nil_iff]
        intro p _
        by_cases h : p.1 = u <;> simp [h]
      rw [hnil]
  · intro hr
    have hrun : RankOp.run chan t (.setRank u r) =
        t.exec chan (rankUpsertSql chan) [u, .num r, .num r] := by
      simp only [RankOp.run, setRank_trace _ chan u r hvalid hr, RankTable.apply,
        List.foldl_cons, List.foldl_nil]
    obtain ⟨hall, q, hq, hqu⟩ := exec_upsert chan t u r
    rw [getRank_on_table chan _ u hvalid, hrun]
    cases hf : ((t.exec chan (rankUpsertSql chan) [u, .num r, .num r]).filter
        fun p => p.1 == u) with
    | nil =>
      exfalso
      have : q ∈ ((t.exec chan (rankUpsertSql chan) [u, .num r, .num r]).filter
          fun p => p.1 == u) := List.mem_filter.mpr ⟨hq, by simp [hqu]⟩
      rw [hf] at this
      simp at this
    | cons p rest =>
      have hp : p ∈ ((t.exec chan (rankUpsertSql chan) [u, .num r, .num r]).filter
          fun p => p.1 == u) := by rw [hf]; simp
      have hp2 := List.mem_filter.mp hp
      have : p.2 = r := hall p hp2.1 (by simpa using hp2.2)
      simp [this]

/-- C12 at a concrete input: `bob` holds rank 3; after `setRank(room, bob, 1)` his
row is gone and `getRank` passes 1, and after `setRank(room, bob, 4)` it passes 4. -/
theorem setRank_then_getRank_witness :
    valid (.str "room") = true ∧ (1 : Int) < 2 ∧ (2 : Int) ≤ 4 ∧
    RankOp.run "room" [(.str "bob", 3)] (.setRank (.str "bob") 1) = [] ∧
    getRank ((RankOp.run "room" [(.str "bob", 3)] (.setRank (.str "bob") 1)).env "room")
        (.str "room") (.str "bob") (some record) =
      [Event.query (rankSelectSql "room") [.str "bob"], Event.callback none (.num 1)] ∧
    getRank ((RankOp.run "room" [(.str "bob", 3)] (.setRank (.str "bob") 4)).env "room")
        (.str "room") (.str "bob") (some record) =
      [Event.query (rankSelectSql "room") [.str "bob"],
       Event.callback none (.prim (.num 4))] :=
  ⟨by decide, by decide, by decide, by decide,
    ((setRank_then_getRank "room" [(.str "bob", 3)] (.str "bob") 1 (by decide)).1
      (by decide)).2.2.2,
    (setRank_then_getRank "room" [(.str "bob", 3)] (.str "bob") 4 (by decide)).2
      (by decide)⟩

/-- A statement whose rank parameters are at least 2 keeps every stored rank at
least 2. -/
theorem exec_keeps_ranks (chan : String) (t : RankTable) (sql : String) (params : List Prim)
    (ht : ∀ p ∈ t, 2 ≤ p.2) (hp : ∀ r, Prim.num r ∈ params.tail → 2 ≤ r) :
    ∀ p ∈ t.exec chan sql params, 2 ≤ p.2 := by
  unfold RankTable.exec
  split_ifs
  · split
    · intro p hmem
      exact ht p (List.mem_filter.mp hmem).1
    · exact ht
  · split
    · rename_i name rank update
      split_ifs
      · intro p hmem
        simp only [List.mem_map] at hmem
        obtain ⟨q, hq, rfl⟩ := hmem
        split_ifs
        · exact hp update (by simp)
        · exact ht q hq
      · intro p hmem
        simp only [List.mem_append, List.mem_singleton] at hmem
        rcases hmem with hmem | rfl
        · exact ht p hmem
        · exact hp rank (by simp)
    · exact ht
  · split
    · rename_i name rank
      split_ifs
      · exact ht
      · intro p hmem
        simp only [List.mem_append, List.mem_singleton] at hmem
        rcases hmem with hmem | rfl
        · exact ht p hmem
        · exact hp rank (by simp)
    · exact ht
  · exact ht

/-- The statements of a trace whose rank parameters are at least 2 keep every
stored rank at least 2. -/
theorem apply_keeps_ranks (chan : String) (trace : Trace) (t : RankTable)
    (ht : ∀ p ∈ t, 2 ≤ p.2)
    (hp : ∀ sql params, Event.query sql params ∈ trace →
      ∀ r, Prim.num r ∈ params.tail → 2 ≤ r) :
    ∀ p ∈ t.apply chan trace, 2 ≤ p.2 := by
  induction trace generalizing t with
  | nil => exact ht
  | cons e rest ih =>
    simp only [RankTable.apply, List.foldl_cons]
    apply ih
    · cases e with
      | query sql params =>
        exact exec_keeps_ranks chan t sql params ht (hp sql params (by simp))
      | createChannelTables _ => exact ht
      | getGlobalRank _ => exact ht
      | unlink _ => exact ht
      | callback _ _ => exact ht
      | typeError => exact ht
    · intro sql params hmem
      exact hp sql params (List.mem_cons_of_mem _ hmem)

/-- One call of `setRank` or `deleteRank` with any rank, or of `newRank` with a rank
of at least 2, keeps every stored rank at least 2. -/
theorem run_keeps_ranks (chan : String) (t : RankTable) (op : RankOp)
    (ht : ∀ p ∈ t, 2 ≤ p.2) (hop : ∀ name r, op = .newRank name r → 2 ≤ r) :
    ∀ p ∈ RankOp.run chan t op, 2 ≤ p.2 := by
  cases op with
  | setRank name rank =>
    apply apply_keeps_ranks chan _ t ht
    intro sql params hmem r hr
    by_cases hlt : rank < 2
    · by_cases hv : valid (.str chan) = true <;>
        simp [setRank, deleteRank, dbQuery, passRows, blackHole, hlt, hv] at hmem
      obtain ⟨-, rfl⟩ := hmem
      simp at hr
    · by_cases hv : valid (.str chan) = true <;>
        simp [setRank, dbQuery, passRows, blackHole, hlt, hv] at hmem
      obtain ⟨-, rfl⟩ := hmem
      simp at hr
      omega
  | newRank name rank =>
    apply apply_keeps_ranks chan _ t ht
    intro sql params hmem r hr
    have h2 := hop name rank rfl
    by_cases hv : valid (.str chan) = true <;>
      simp [newRank, dbQuery, passRows, blackHole, hv] at hmem
    obtain ⟨-, rfl⟩ := hmem
    simp at hr
    omega
  | deleteRank name =>
    apply apply_keeps_ranks chan _ t ht
    intro sql params hmem r hr
    by_cases hv : valid (.str chan) = true <;>
      simp [deleteRank, dbQuery, passRows, blackHole, hv] at hmem
    obtain ⟨-, rfl⟩ := hmem
    simp at hr

/-- C13 (fails as stated): `newRank` stores the rank it is given. On the empty rank
table of `room`, where the invariant holds, `newRank(room, bob, 1)` leaves the row
`(bob, 1)`, a stored entry with rank below 2. -/
theorem newRank_stores_low_rank :
    (∀ p ∈ ([] : RankTable), 2 ≤ p.2) ∧
    runRankOps "room" [] [.newRank (.str "bob") 1] = [(.str "bob", 1)] ∧
    ¬ ∀ p ∈ runRankOps "room" [] [.newRank (.str "bob") 1], 2 ≤ p.2 := by
  decide

/-- C13 (amended): starting from a rank table in which every stored rank is at
least 2, after any sequence of `setRank` and `deleteRank` with arbitrary integer
ranks and of `newRank` with ranks of at least 2, every stored rank is still at
least 2. -/
theorem rank_store_invariant (chan : String) (ops : List RankOp) (t : RankTable)
    (ht : ∀ p ∈ t, 2 ≤ p.2)
    (hops : ∀ name r, RankOp.newRank name r ∈ ops → 2 ≤ r) :
    ∀ p ∈ runRankOps chan t ops, 2 ≤ p.2 := by
  induction ops generalizing t with
  | nil => exact ht
  | cons op rest ih =>
    simp only [runRankOps, List.foldl_cons]
    apply ih
    · apply run_keeps_ranks chan t op ht
      intro name r hop
      exact hops name r (by simp [hop])
    · intro name r hmem
      exact hops name r (List.mem_cons_of_mem _ hmem)

/-- C13 (amended) at a concrete input: ranks are set, lowered below 2, inserted and
deleted; the table ends with the ranks 5 and 2. -/
theorem rank_store_invariant_witness :
    (∀ p ∈ ([(.str "alice", 5)] : RankTable), 2 ≤ p.2) ∧
    runRankOps "room" [(.str "alice", 5)]
        [.setRank (.str "bob") 3, .setRank (.str "bob") 0, .newRank (.str "carol") 2,
         .newRank (.str "alice") 9, .deleteRank (.str "dave")] =
      [(.str "alice", 5), (.str "carol", 2)] ∧
    ∀ p ∈ runRankOps "room" [(.str "alice", 5)]
        [.setRank (.str "bob") 3, .setRank (.str "bob") 0, .newRank (.str "carol") 2,
         .newRank (.str "alice") 9, .deleteRank (.str "dave")], 2 ≤ p.2 :=
  ⟨by decide, by decide,
    rank_store_invariant "room" _ [(.str "alice", 5)] (by decide) (by
      intro name r hmem
      simp at hmem
      rcases hmem with ⟨-, rfl⟩ | ⟨-, rfl⟩ <;> decide)⟩

/-! ## The ban store -/

/-- Splitting at dots leaves a list without a dot whole. -/
theorem splitDots_noDot (x : List Char) (h : '.' ∉ x) : splitDots x = [x] := by
  induction x with
  | nil => rfl
  | cons ch rest ih =>
    have hc : ch ≠ '.' := fun e => h (by simp [e])
    have hr : '.' ∉ rest := fun e => h (List.mem_cons_of_mem _ e)
    simp [splitDots, hc, ih hr]

/-- Splitting at dots cuts after a leading part without a dot. -/
theorem splitDots_append (x rest : List Char) (h : '.' ∉ x) :
    splitDots (x ++ '.' :: rest) = x :: splitDots rest := by
  induction x with
  | nil => simp [splitDots]
  | cons ch xs ih =>
    have hc : ch ≠ '.' := fun e => h (by simp [e])
    have hr : '.' ∉ xs := fun e => h (List.mem_cons_of_mem _ e)
    simp [splitDots, hc, ih hr]

/-- A run of digits holds no dot. -/
theorem isDigits_noDot (x : List Char) (h : isDigits x = true) : '.' ∉ x := by
  intro hmem
  simp only [isDigits, Bool.and_eq_true, List.all_eq_true] at h
  have := h.2 '.' hmem
  revert this
  decide

/-- The range of a dotted address of four digit runs is its first three runs. -/
theorem ipRange_dotted4 (a b c d : List Char) (ha : isDigits a = true)
    (hb : isDigits b = true) (hc : isDigits c = true) (hd : isDigits d = true) :
    ipRange (dotted4 a b c d) = dotted3 a b c := by
  have hs : splitDots (a ++ '.' :: (b ++ '.' :: (c ++ '.' :: d))) = [a, b, c, d] := by
    rw [splitDots_append a _ (isDigits_noDot a ha), splitDots_append b _ (isDigits_noDot b hb),
      splitDots_append c _ (isDigits_noDot c hc), splitDots_noDot d (isDigits_noDot d hd)]
  simp [ipRange, dotted4, dotted3, hs, ha, hb, hc, hd]

/-- C14 (fails as stated): after `ban(room, "1.2.3.*", ...)` the ban table holds a
row whose `ip` is the pattern `1.2.3.*`, yet `isIPBanned(room, "1.2.3.4")` asks for
the rows with `ip` equal to `1.2.3.4` or `1.2.3` and reports `false`. -/
theorem isIPBanned_misses_star_pattern :
    BanTable.apply "room" []
        (ban (BanTable.env "room" []) (.str "room") (.str "1.2.3.*") (.str "troll")
          (.str "spam") (.str "mod") none) =
      [⟨.str "1.2.3.*", .str "troll", .str "spam", .str "mod"⟩] ∧
    dotted4 ['1'] ['2'] ['3'] ['4'] = "1.2.3.4" ∧
    dottedStar ['1'] ['2'] ['3'] = "1.2.3.*" ∧
    isIPBanned (BanTable.env "room" [⟨.str "1.2.3.*", .str "troll", .str "spam", .str "mod"⟩])
        (.str "room") "1.2.3.4" (some record) =
      [Event.query "SELECT * FROM `chan_room_bans` WHERE ip=? OR ip=?"
          [.str "1.2.3.4", .str "1.2.3"],
       Event.callback none (.bool false)] := by
  decide

/-- C14 (amended): for a valid channel and a dotted address `a.b.c.d` of four digit
runs, when the lookup succeeds `isIPBanned` reports `true` if and only if the ban
table holds a row whose `ip` is the address itself or its first three octets
`a.b.c`. -/
theorem isIPBanned_exact_or_range (chan : String) (t : BanTable) (a b c d : List Char)
    (hvalid : valid (.str chan) = true)
    (ha : isDigits a = true) (hb : isDigits b = true) (hc : isDigits c = true)
    (hd : isDigits d = true) :
    isIPBanned (t.env chan) (.str chan) (dotted4 a b c d) (some record) =
      [Event.query (banSelectIpSql chan) [.str (dotted4 a b c d), .str (dotted3 a b c)],
       Event.callback none (.bool (decide (∃ r ∈ t,
         r.ip = .str (dotted4 a b c d) ∨ r.ip = .str (dotted3 a b c))))] := by
  have hsql : "SELECT * FROM `chan_" ++ (Prim.str chan).toJsString ++
      "_bans` WHERE ip=? OR ip=?" = banSelectIpSql chan := rfl
  have hq : (t.env chan).query (banSelectIpSql chan)
      [.str (dotted4 a b c d), .str (dotted3 a b c)] =
      (none, some ((t.filter fun r => r.ip == .str (dotted4 a b c d) ||
        r.ip == .str (dotted3 a b c)).map BanRow.toRow)) := by
    simp [BanTable.env, BanTable.answer]
  have hnone : Err.truthy none = false := rfl
  have key : decide ((List.map BanRow.toRow (t.filter fun r =>
        r.ip == .str (dotted4 a b c d) || r.ip == .str (dotted3 a b c))).length > 0) =
      decide (∃ r ∈ t, r.ip = .str (dotted4 a b c d) ∨ r.ip = .str (dotted3 a b c)) := by
    apply decide_eq_decide.mpr
    rw [List.length_map, gt_iff_lt, List.length_pos_iff_exists_mem]
    constructor
    · rintro ⟨r, hr⟩
      obtain ⟨hmem, hcond⟩ := List.mem_filter.mp hr
      exact ⟨r, hmem, by simpa using hcond⟩
    · rintro ⟨r, hmem, hcond⟩
      exact ⟨r, List.mem_filter.mpr ⟨hmem, by simpa using hcond⟩⟩
  simp only [isIPBanned, banCheck, dbQuery, hvalid, Bool.not_true, Bool.false_eq_true,
    if_false, hsql, ipRange_dotted4 a b c d ha hb hc hd, hq, hnone, record, key]

/-- C14 (amended) at a concrete input: after `ban(room, "1.2.3", ...)` the address
`1.2.3.4` is reported as banned. -/
theorem isIPBanned_exact_or_range_witness :
    valid (.str "room") = true ∧ isDigits ['1'] = true ∧ isDigits ['2'] = true ∧
    isDigits ['3'] = true ∧ isDigits ['4'] = true ∧
    BanTable.apply "room" []
        (ban (BanTable.env "room" []) (.str "room") (.str "1.2.3") (.str "troll")
          (.str "spam") (.str "mod") none) =
      [⟨.str "1.2.3", .str "troll", .str "spam", .str "mod"⟩] ∧
    decide (∃ r ∈ ([⟨.str "1.2.3", .str "troll", .str "spam", .str "mod"⟩] : BanTable),
      r.ip = .str (dotted4 ['1'] ['2'] ['3'] ['4']) ∨
        r.ip = .str (dotted3 ['1'] ['2'] ['3'])) = true ∧
    isIPBanned (BanTable.env "room" [⟨.str "1.2.3", .str "troll", .str "spam", .str "mod"⟩])
        (.str "room") (dotted4 ['1'] ['2'] ['3'] ['4']) (some record) =
      [Event.query (banSelectIpSql "room")
          [.str (dotted4 ['1'] ['2'] ['3'] ['4']), .str (dotted3 ['1'] ['2'] ['3'])],
       Event.callback none (.bool (decide (∃ r ∈
         ([⟨.str "1.2.3", .str "troll", .str "spam", .str "mod"⟩] : BanTable),
         r.ip = .str (dotted4 ['1'] ['2'] ['3'] ['4']) ∨
           r.ip = .str (dotted3 ['1'] ['2'] ['3']))))] :=
  ⟨by decide, by decide, by decide, by decide, by decide, by decide, by decide,
    isIPBanned_exact_or_range "room" [⟨.str "1.2.3", .str "troll", .str "spam", .str "mod"⟩]
      ['1'] ['2'] ['3'] ['4'] (by decide) (by decide) (by decide) (by decide) (by decide)⟩

/-! ## Channel requests -/

/-- C15: for a session in a live channel and an integer `rank` sent with
`"borrow-rank"`: when `rank` exceeds the account's global rank nothing changes and
nothing is sent; otherwise the channel rank is set to a value that does not exceed
the global rank, that value is emitted as `"rank"`, and the same value is broadcast
as `setUserRank` with the account's name. -/
theorem borrow_rank_bounded (u : User) (r : Int) (hin : u.inChannel = true) :
    (r > u.account.globalRank → onBorrowRank u (.prim (.num r)) = (u, [])) ∧
    (r ≤ u.account.globalRank →
      ∃ v : Int, v ≤ u.account.globalRank ∧
        onBorrowRank u (.prim (.num r)) =
          ({ u with account := { u.account with channelRank := v } },
           [.emitRank v, .sendAllSetUserRank u.account.name v])) := by
  have htype : ((JsVal.prim (.num r)).typeof != "number") = false := by
    simp [JsVal.typeof, Prim.typeof]
  constructor
  · intro hgt
    simp [onBorrowRank, hin, htype, JsVal.asNum, hgt]
  · intro hle
    have hngt : ¬ r > u.account.globalRank := by omega
    by_cases h255 : r = 255 ∧ u.account.globalRank > 255
    · refine ⟨u.account.globalRank, le_refl _, ?_⟩
      have hcond : (r == 255 && decide (u.account.globalRank > 255)) = true := by
        simp [h255.1, h255.2]
      simp only [onBorrowRank, hin, htype, JsVal.asNum, if_true, Bool.false_eq_true, if_false,
        hngt, hcond]
    · refine ⟨r, hle, ?_⟩
      have hcond : (r == 255 && decide (u.account.globalRank > 255)) = false := by
        rw [Bool.and_eq_false_iff]
        by_cases h1 : r = 255
        · right
          simpa using fun h2 => h255 ⟨h1, h2⟩
        · left
          simpa using h1
      simp only [onBorrowRank, hin, htype, JsVal.asNum, if_true, Bool.false_eq_true, if_false,
        hngt, hcond]

/-- C15 at a concrete input: the account `root` has global rank 255; the rank 300
is rejected and the rank 3 is taken over and broadcast. -/
theorem borrow_rank_bounded_witness :
    adminInRoom.inChannel = true ∧ (300 : Int) > adminInRoom.account.globalRank ∧
    (3 : Int) ≤ adminInRoom.account.globalRank ∧
    onBorrowRank adminInRoom (.prim (.num 300)) = (adminInRoom, []) ∧
    ∃ v : Int, v ≤ adminInRoom.account.globalRank ∧
      onBorrowRank adminInRoom (.prim (.num 3)) =
        ({ adminInRoom with account := { adminInRoom.account with channelRank := v } },
         [.emitRank v, .sendAllSetUserRank adminInRoom.account.name v]) :=
  ⟨by decide, by decide, by decide,
    (borrow_rank_bounded adminInRoom 300 (by decide)).1 (by decide),
    (borrow_rank_bounded adminInRoom 3 (by decide)).2 (by decide)⟩

/-- C17: a listener registered through `wrap` or `wrapTypecheck` does nothing when
the session is not in a live channel. When it is, the listener is exactly one call
of the handler: with the payload for `wrap`, and for `wrapTypecheck` with the payload
when its type is `"object"` and with the empty object otherwise. The listeners add
no effect of their own, so none of them kicks the connection. -/
theorem wrappers_gate {β : Type} (u : User) (fn : JsVal → List β) (data : JsVal) :
    (u.inChannel = false → wrap u fn data = [] ∧ wrapTypecheck u fn data = []) ∧
    (u.inChannel = true → wrap u fn data = fn data ∧
      wrapTypecheck u fn data = fn (if data.typeof = "object" then data else .obj [])) := by
  constructor
  · intro h
    simp [wrap, wrapTypecheck, typecheck, h]
  · intro h
    refine ⟨by simp [wrap, h], ?_⟩
    by_cases ht : data.typeof = "object" <;> simp [wrapTypecheck, typecheck, h, ht]

/-- C17 at concrete inputs: a new session drops a `"pm"` request; a session in the
channel `room` hands an object payload to the handler and replaces a string payload
by the empty object. -/
theorem wrappers_gate_witness :
    newSession.user.inChannel = false ∧ adminInRoom.inChannel = true ∧
    wrapTypecheck newSession.user pmHandler
        (.obj [("msg", .str "hi"), ("to", .str "bob")]) = [] ∧
    wrapTypecheck adminInRoom pmHandler (.obj [("msg", .str "hi"), ("to", .str "bob")]) =
      pmHandler (if (JsVal.obj [("msg", .str "hi"), ("to", .str "bob")]).typeof = "object"
        then .obj [("msg", .str "hi"), ("to", .str "bob")] else .obj []) ∧
    wrapTypecheck adminInRoom (fun data => [data]) (.prim (.str "hi")) = [.obj []] :=
  ⟨by decide, by decide,
    ((wrappers_gate newSession.user pmHandler _).1 (by decide)).2,
    ((wrappers_gate adminInRoom pmHandler _).2 (by decide)).2,
    ((wrappers_gate adminInRoom (fun data => [data]) (.prim (.str "hi"))).2 (by decide)).2⟩

/-- A payload other than `null` reaches the handler of `wrapTypecheck` as a value
whose properties can be read. -/
theorem wrapTypecheck_nonNull (u : User) (data : JsVal) (h : data ≠ .prim .null) :
    ∀ v ∈ wrapTypecheck u (fun d => [d]) data, v.isNullish = false := by
  intro v hv
  simp only [wrapTypecheck, typecheck] at hv
  split_ifs at hv with h1 h2 h3
  · simp at hv; subst hv; rfl
  · simp at hv
  · simp at hv
    subst hv
    cases v with
    | prim p =>
      cases p <;> simp_all [JsVal.typeof, Prim.typeof, JsVal.isNullish]
    | obj fields => rfl
    | arr items => rfl
  · simp at hv

/-- C18 (fails on the code): the payload `null` has type `"object"`, so `typecheck`
hands it on unchanged. The handler of a `wrapTypecheck` request receives `null`, the
`"pm"` handler throws a `TypeError` on reading `data.msg`, and so does the
`"joinChannel"` handler on reading `data.name`. -/
theorem null_payload_reaches_handlers :
    (JsVal.prim .null).typeof = "object" ∧
    wrapTypecheck adminInRoom (fun data => [data]) (.prim .null) = [.prim .null] ∧
    wrapTypecheck adminInRoom pmHandler (.prim .null) = [Effect.typeError] ∧
    onJoinChannel newSession.user (.prim .null) = [Effect.typeError] := by
  decide

/-! ## The guest login cooldown -/

/-- Starting a password login leaves the recorded guest login times alone. -/
theorem login_lastguestlogin (w : World) (name pw : String) :
    (login w name pw).lastguestlogin = w.lastguestlogin := rfl

/-- Starting a guest login leaves the recorded guest login times alone. -/
theorem guestLogin_lastguestlogin (cfg : Config) (now : Int) (w : World) (name : String) :
    (guestLogin cfg now w name).lastguestlogin = w.lastguestlogin := by
  unfold guestLogin
  dsimp only
  split_ifs <;> rfl

/-- A `"login"` message leaves the recorded guest login times alone. -/
theorem onLogin_lastguestlogin (cfg : Config) (now : Int) (w : World) (data : JsVal) :
    (onLogin cfg now w data).lastguestlogin = w.lastguestlogin := by
  unfold onLogin
  dsimp only
  split_ifs <;> first | rfl | exact guestLogin_lastguestlogin _ _ _ _

/-- The callbacks of `login` leave the recorded guest login times alone. -/
theorem loginVerified_lastguestlogin (w : World) (name : String) (err : Err)
    (userName : String) :
    (loginVerified w name err userName).lastguestlogin = w.lastguestlogin := by
  unfold loginVerified
  dsimp only
  split_ifs <;> rfl

/-- The callback of `getAccount` in `login` leaves the recorded times alone. -/
theorem loginAccount_lastguestlogin (w : World) (userName : String) (err : Err)
    (account : Account) :
    (loginAccount w userName err account).lastguestlogin = w.lastguestlogin := by
  unfold loginAccount World.onLoginEvent
  dsimp only
  split_ifs <;> rfl

/-- The callback of `getAccount` in `guestLogin` leaves the recorded times alone. -/
theorem guestLoginAccount_lastguestlogin (w : World) (name : String) (err : Err)
    (account : Account) :
    (guestLoginAccount w name err account).lastguestlogin = w.lastguestlogin := by
  unfold guestLoginAccount World.onLoginEvent
  dsimp only
  split_ifs <;> rfl

/-- The callback of the user name lookup records the time only on its last
branch: no error, name not registered, name not in use on the channel. -/
theorem guestLoginChecked_lastguestlogin (cfg : Config) (now : Int) (w : World)
    (name : String) (err : Err) (taken : Bool)
    (h : (guestLoginChecked cfg now w name err taken).lastguestlogin ≠ w.lastguestlogin) :
    err.truthy = false ∧ taken = false ∧
    (w.user.inChannel &&
      ((w.user.channel.map fun c =>
        c.users.any fun u => u == cfg.toLowerCase name).getD false)) = false ∧
    (guestLoginChecked cfg now w name err taken).lastguestlogin =
      (w.user.ip, now) :: w.lastguestlogin.filter fun p => p.1 != w.user.ip := by
  unfold guestLoginChecked at h ⊢
  dsimp only at h ⊢
  split_ifs at h ⊢ with h1 h2 h3
  · exact absurd rfl h
  · exact absurd rfl h
  · exact absurd rfl h
  · refine ⟨by simpa using h1, by simpa using h2, ?_, rfl⟩
    simpa [World.clearFlag, User.clearFlag, User.inChannel] using h3

/-- A user name lookup issued by `guestLogin` belongs to an attempt that passed the
cooldown check and the name check. -/
theorem guestLogin_pending (cfg : Config) (now : Int) (w : World) (name n : String)
    (h : Pending.isUsernameTaken n ∈ (guestLogin cfg now w name).pending) :
    Pending.isUsernameTaken n ∈ w.pending ∨
    (n = name ∧ cfg.isValidUserName n = true ∧
      ∀ last, w.lastguestlogin.lookup w.user.ip = some last →
        (cfg.guestLoginDelay : ℚ) ≤ ((now : ℚ) - (last : ℚ)) / 1000) := by
  unfold guestLogin at h
  dsimp only at h
  split_ifs at h with h1 h2
  · exact Or.inl h
  · exact Or.inl h
  · simp only [World.issue, World.setFlag, List.mem_append, List.mem_singleton,
      Pending.isUsernameTaken.injEq] at h
    rcases h with h | rfl
    · exact Or.inl h
    · refine Or.inr ⟨rfl, by simpa using h2, ?_⟩
      intro last hlast
      rw [hlast] at h1
      simpa using h1

/-- The callbacks and `login` issue no user name lookup. -/
theorem login_pending (w : World) (name pw n : String)
    (h : Pending.isUsernameTaken n ∈ (login w name pw).pending) :
    Pending.isUsernameTaken n ∈ w.pending := by
  simpa [login, World.issue] using h

/-- The callback of `verifyLogin` issues no user name lookup. -/
theorem loginVerified_pending (w : World) (name : String) (err : Err) (userName n : String)
    (h : Pending.isUsernameTaken n ∈ (loginVerified w name err userName).pending) :
    Pending.isUsernameTaken n ∈ w.pending := by
  unfold loginVerified at h
  dsimp only at h
  split_ifs at h <;> simpa [World.issue, World.emit, World.throw] using h

/-- The callback of `getAccount` in `login` issues no user name lookup. -/
theorem loginAccount_pending (w : World) (userName : String) (err : Err) (account : Account)
    (n : String) (h : Pending.isUsernameTaken n ∈ (loginAccount w userName err account).pending) :
    Pending.isUsernameTaken n ∈ w.pending := by
  unfold loginAccount World.onLoginEvent at h
  dsimp only at h
  split_ifs at h <;> simpa [World.emit, World.setFlag] using h

/-- The callback of `getAccount` in `guestLogin` issues no user name lookup. -/
theorem guestLoginAccount_pending (w : World) (name : String) (err : Err) (account : Account)
    (n : String)
    (h : Pending.isUsernameTaken n ∈ (guestLoginAccount w name err account).pending) :
    Pending.isUsernameTaken n ∈ w.pending := by
  unfold guestLoginAccount World.onLoginEvent at h
  dsimp only at h
  split_ifs at h <;> simpa [World.emit, World.setFlag] using h

/-- The callback of the user name lookup issues no further lookup. -/
theorem guestLoginChecked_pending (cfg : Config) (now : Int) (w : World) (name : String)
    (err : Err) (taken : Bool) (n : String)
    (h : Pending.isUsernameTaken n ∈ (guestLoginChecked cfg now w name err taken).pending) :
    Pending.isUsernameTaken n ∈ w.pending := by
  unfold guestLoginChecked at h
  dsimp only at h
  split_ifs at h <;> simpa [World.issue, World.emit, World.clearFlag] using h

/-- A user name lookup pending after a `"login"` message was pending before or
belongs to a guest attempt that passed the cooldown check and the name check. -/
theorem onLogin_pending (cfg : Config) (now : Int) (w : World) (data : JsVal) (n : String)
    (h : Pending.isUsernameTaken n ∈ (onLogin cfg now w data).pending) :
    Pending.isUsernameTaken n ∈ w.pending ∨
    (cfg.isValidUserName n = true ∧
      ∀ last, w.lastguestlogin.lookup w.user.ip = some last →
        (cfg.guestLoginDelay : ℚ) ≤ ((now : ℚ) - (last : ℚ)) / 1000) := by
  unfold onLogin at h
  dsimp only at h
  split_ifs at h <;>
    first
      | exact Or.inl h
      | exact Or.inl (by simpa [World.throw] using h)
      | exact Or.inl (login_pending _ _ _ _ h)
      | exact (guestLogin_pending _ _ _ _ _ h).imp id fun hh => hh.2

/-- C16: let the address of the session have a recorded guest login time `t0`.
A `guestLogin` at time `now` with `(now - t0) / 1000` below the configured delay is
rejected with the cooldown error, issues no user name lookup and leaves the
recorded times as they are; with `(now - t0) / 1000` at or above the delay it
passes on to the name check. A step changes the recorded times only when it is the
completion of a pending user name lookup that reports no error, a name that is not
registered and not in use on the channel, and then it records the time of the
completion for the address. Every pending user name lookup was issued by a guest
attempt that passed the cooldown check and the name check. And such a completion
does record its time. The lower-casing of the name is the function `toLowerCase`
of the configuration, whatever it is. -/
theorem guest_cooldown (cfg : Config) (now : Int) (w : World) (name : String) (t0 : Int)
    (hrec : w.lastguestlogin.lookup w.user.ip = some t0) :
    (((now : ℚ) - (t0 : ℚ)) / 1000 < (cfg.guestLoginDelay : ℚ) →
      guestLogin cfg now w name =
        w.emit (.loginFailure ("Guest logins are restricted to one per IP address per " ++
          toString cfg.guestLoginDelay ++ " seconds.")) ∧
      (guestLogin cfg now w name).pending = w.pending ∧
      (guestLogin cfg now w name).lastguestlogin = w.lastguestlogin) ∧
    ((cfg.guestLoginDelay : ℚ) ≤ ((now : ℚ) - (t0 : ℚ)) / 1000 →
      guestLogin cfg now w name =
        if !cfg.isValidUserName name then
          w.emit (.loginFailure
            ("Invalid username.  Usernames must be 1-20 characters long and " ++
              "consist only of characters a-z, A-Z, 0-9, -, _, and accented " ++ "letters."))
        else (w.setFlag User.LOGGING_IN).issue (.isUsernameTaken name)) ∧
    (∀ st : Step, (step cfg w st).lastguestlogin ≠ w.lastguestlogin →
      ∃ i tnow err taken n, st = .isUsernameTakenDone i tnow err taken ∧
        w.pending.get? i = some (.isUsernameTaken n) ∧
        err.truthy = false ∧ taken = false ∧
        (w.user.inChannel &&
          ((w.user.channel.map fun c =>
            c.users.any fun u => u == cfg.toLowerCase n).getD false)) = false ∧
        (step cfg w st).lastguestlogin =
          (w.user.ip, tnow) :: w.lastguestlogin.filter fun p => p.1 != w.user.ip) ∧
    (∀ (st : Step) (n : String), Pending.isUsernameTaken n ∈ (step cfg w st).pending →
      Pending.isUsernameTaken n ∈ w.pending ∨
      ∃ tnow, (st = .guestLogin tnow n ∨ ∃ data, st = .loginMsg tnow data) ∧
        cfg.isValidUserName n = true ∧
        ∀ last, w.lastguestlogin.lookup w.user.ip = some last →
          (cfg.guestLoginDelay : ℚ) ≤ ((tnow : ℚ) - (last : ℚ)) / 1000) ∧
    (∀ (i : Nat) (tnow : Int) (err : Err) (n : String),
      w.pending.get? i = some (.isUsernameTaken n) → err.truthy = false →
      (w.user.inChannel &&
        ((w.user.channel.map fun c =>
          c.users.any fun u => u == cfg.toLowerCase n).getD false)) = false →
      (step cfg w (.isUsernameTakenDone i tnow err false)).lastguestlogin =
        (w.user.ip, tnow) :: w.lastguestlogin.filter fun p => p.1 != w.user.ip) := by
  refine ⟨?_, ?_, ?_, ?_, ?_⟩
  · intro hlt
    have hg : guestLogin cfg now w name =
        w.emit (.loginFailure ("Guest logins are restricted to one per IP address per " ++
          toString cfg.guestLoginDelay ++ " seconds.")) := by
      simp [guestLogin, hrec, hlt]
    exact ⟨hg, by rw [hg]; rfl, by rw [hg]; rfl⟩
  · intro hge
    have hnlt : ¬ ((now : ℚ) - (t0 : ℚ)) / 1000 < (cfg.guestLoginDelay : ℚ) := not_lt.mpr hge
    simp [guestLogin, hrec, hnlt]
  · intro st hne
    cases st with
    | setFlag flag => exact absurd rfl hne
    | clearFlag flag => exact absurd rfl hne
    | login name pw => exact absurd rfl hne
    | guestLogin tnow n => exact absurd (guestLogin_lastguestlogin _ _ _ _) hne
    | loginMsg tnow data => exact absurd (onLogin_lastguestlogin _ _ _ _) hne
    | verifyLoginDone i err userName =>
      exfalso
      apply hne
      simp only [step]
      split
      · exact loginVerified_lastguestlogin _ _ _ _
      · rfl
    | isUsernameTakenDone i tnow err taken =>
      simp only [step] at hne ⊢
      split at hne
      · rename_i n hget
        obtain ⟨h1, h2, h3, h4⟩ := guestLoginChecked_lastguestlogin _ _ _ _ _ _ hne
        exact ⟨i, tnow, err, taken, n, rfl, hget, h1, h2, h3, h4⟩
      · exact absurd rfl hne
    | getAccountDone i err account =>
      exfalso
      apply hne
      simp only [step]
      split
      · exact loginAccount_lastguestlogin _ _ _ _
      · exact guestLoginAccount_lastguestlogin _ _ _ _
      · rfl
    | setChannel channel => exact absurd rfl hne
  · intro st n hmem
    cases st with
    | setFlag flag => exact Or.inl hmem
    | clearFlag flag => exact Or.inl hmem
    | login name pw => exact Or.inl (login_pending _ _ _ _ hmem)
    | guestLogin tnow m =>
      rcases guestLogin_pending _ _ _ _ _ hmem with h | ⟨rfl, hv, hc⟩
      · exact Or.inl h
      · exact Or.inr ⟨tnow, Or.inl rfl, hv, hc⟩
    | loginMsg tnow data =>
      rcases onLogin_pending _ _ _ _ _ hmem with h | ⟨hv, hc⟩
      · exact Or.inl h
      · exact Or.inr ⟨tnow, Or.inr ⟨data, rfl⟩, hv, hc⟩
    | verifyLoginDone i err userName =>
      left
      simp only [step] at hmem
      split at hmem
      · exact List.mem_of_mem_eraseIdx (loginVerified_pending _ _ _ _ _ hmem)
      · exact hmem
    | isUsernameTakenDone i tnow err taken =>
      left
      simp only [step] at hmem
      split at hmem
      · exact List.mem_of_mem_eraseIdx (guestLoginChecked_pending _ _ _ _ _ _ _ hmem)
      · exact hmem
    | getAccountDone i err account =>
      left
      simp only [step] at hmem
      split at hmem
      · exact List.mem_of_mem_eraseIdx (loginAccount_pending _ _ _ _ _ hmem)
      · exact List.mem_of_mem_eraseIdx (guestLoginAccount_pending _ _ _ _ _ hmem)
      · exact hmem
    | setChannel channel => exact Or.inl hmem
  · intro i tnow err n hget herr hdup
    have hdup2 : ((w.user.clearFlag User.LOGGING_IN).inChannel &&
        (((w.user.clearFlag User.LOGGING_IN).channel.map fun c =>
          c.users.any fun u => u == cfg.toLowerCase n).getD false)) = false := hdup
    simp only [step, hget, guestLoginChecked, World.clearFlag, herr, Bool.false_eq_true,
      if_false, hdup2, World.issue]
    rfl

/-- C16 at concrete inputs: the address logged in as a guest at time 1000 and the
delay is 60 seconds. An attempt at time 31000 is rejected; an attempt at time 61000
passes the cooldown check and issues the user name lookup; when that lookup
completes at time 90000 with no error and a free name, the time 90000 is recorded
for the address. -/
theorem guest_cooldown_witness :
    cooledSession.lastguestlogin.lookup cooledSession.user.ip = some 1000 ∧
    (((31000 : Int) : ℚ) - ((1000 : Int) : ℚ)) / 1000 < (sampleConfig.guestLoginDelay : ℚ) ∧
    (sampleConfig.guestLoginDelay : ℚ) ≤ (((61000 : Int) : ℚ) - ((1000 : Int) : ℚ)) / 1000 ∧
    guestLogin sampleConfig 31000 cooledSession "bob" =
      cooledSession.emit (.loginFailure
        "Guest logins are restricted to one per IP address per 60 seconds.") ∧
    guestLogin sampleConfig 61000 cooledSession "bob" =
      (cooledSession.setFlag User.LOGGING_IN).issue (.isUsernameTaken "bob") ∧
    guestLogin sampleConfig 61000 cooledSession "bob" = lookupPending ∧
    lookupPending.lastguestlogin.lookup lookupPending.user.ip = some 1000 ∧
    (step sampleConfig lookupPending (.isUsernameTakenDone 0 90000 none false)).lastguestlogin =
      (lookupPending.user.ip, 90000) ::
        lookupPending.lastguestlogin.filter (fun p => p.1 != lookupPending.user.ip) ∧
    (step sampleConfig lookupPending (.isUsernameTakenDone 0 90000 none false)).lastguestlogin =
      [("10.0.0.1", 90000)] :=
  ⟨by decide, by norm_num [sampleConfig], by norm_num [sampleConfig],
    ((guest_cooldown sampleConfig 31000 cooledSession "bob" 1000 (by decide)).1
      (by norm_num [sampleConfig])).1,
    (guest_cooldown sampleConfig 61000 cooledSession "bob" 1000 (by decide)).2.1
      (by norm_num [sampleConfig]),
    ((guest_cooldown sampleConfig 61000 cooledSession "bob" 1000 (by decide)).2.1
      (by norm_num [sampleConfig])).trans (by decide),
    by decide,
    (guest_cooldown sampleConfig 90000 lookupPending "bob" 1000 (by decide)).2.2.2.2
      0 90000 none "bob" (by decide) (by decide) (by decide),
    by decide⟩

/-- The duplicate-name check lower-cases with the configured function: with the
user `élise` on the channel, the completed lookup of `ÉLISE` is answered with the
"already in use" error and records no time. -/
theorem guestLoginChecked_accented_duplicate :
    sampleConfig.toLowerCase "ÉLISE" = "élise" ∧
    (step sampleConfig accentedPending (.isUsernameTakenDone 0 90000 none false)).sent =
      [⟨.loginFailure "That name is already in use on this channel.", 0⟩] ∧
    (step sampleConfig accentedPending
        (.isUsernameTakenDone 0 90000 none false)).lastguestlogin =
      accentedPending.lastguestlogin ∧
    (step sampleConfig accentedPending (.isUsernameTakenDone 0 90000 none false)).pending =
      [] := by
  decide

end Sync
